import Mathlib

/-!
Verification of the studybot adaptive learner-modeling pipeline.

This file gives a shallow embedding, in Lean 4, of the scoring and
session-validation core of the repository:

* `Adaptive`   — src/lib/adaptiveAlgorithm.ts (skill estimate updates,
  difficulty selection, question parameters, diagnostic initialisation);
* `AttnCheck`  — src/lib/assistiveFeatures.ts, class `AttentionCheckSystem`
  (attention checks, response/interaction logs, quality flags, validity);
* `ET`         — src/lib/engagementTracker.ts, class `EngagementTracker`;
* `AET`        — src/lib/advancedEngagementTracker.ts, class
  `AdvancedEngagementTracker` (multimodal fusion, thresholds, classification);
* `Research`   — src/lib/researchDataPipeline.ts, class
  `ResearchDataCollector` (pseudonymous ids).

Modelling conventions: JavaScript numbers are embedded as exact rationals
(`ℚ`), timestamps (`Date.now()` values, milliseconds) as integers (`ℤ`),
and the square roots appearing in `Math.sqrt` as `Real.sqrt` over `ℝ`.
`Math.round` is Lean's `round` (both are `⌊x + 1/2⌋`).  Where the source
branches on a square root (`Math.sqrt d > 5`) the embedding branches on the
equivalent rational inequality (`d > 25`); the equivalence is proved as a
bridge lemma next to each such definition.  Nondeterminism (`Date.now()`,
`Math.random`) is made explicit: every operation takes its timestamp, and
random salts, as parameters.
-/

namespace Adaptive

/-- Skill estimate state vector, from `SkillEstimate` in adaptiveAlgorithm.ts. -/
structure SkillEstimate where
  workingMemory : ℚ
  attention : ℚ
  processingSpeed : ℚ
  executiveFunction : ℚ
  mathFluency : ℚ
  confidence : ℚ
  deriving DecidableEq, Repr

/-- One entry of `recentPerformance`, from `PerformanceMetrics` in adaptiveAlgorithm.ts. -/
structure RecentPerf where
  correct : Bool
  timeSpent : ℚ
  deriving DecidableEq, Repr

/-- Performance metrics record, from `PerformanceMetrics` in adaptiveAlgorithm.ts. -/
structure PerformanceMetrics where
  correctAnswers : ℕ
  totalAnswers : ℕ
  averageResponseTime : ℚ
  attentionScore : ℚ
  recentPerformance : List RecentPerf
  deriving DecidableEq, Repr

/-- `accuracy` as computed inside `updateSkillEstimate`:
`metrics.correctAnswers / Math.max(1, metrics.totalAnswers)`. -/
def accuracy (m : PerformanceMetrics) : ℚ :=
  (m.correctAnswers : ℚ) / max 1 (m.totalAnswers : ℚ)

/-- `speedFactor` as computed inside `updateSkillEstimate`:
`Math.max(0, Math.min(1, 1 - averageResponseTime / 10000))`. -/
def speedFactor (m : PerformanceMetrics) : ℚ :=
  max 0 (min 1 (1 - m.averageResponseTime / 10000))

/-- `performanceScore` as computed inside `updateSkillEstimate`:
`(accuracy * 0.6 + speedFactor * 0.4) * 100`. -/
def performanceScore (m : PerformanceMetrics) : ℚ :=
  (accuracy m * 0.6 + speedFactor m * 0.4) * 100

/-- `updateSkillEstimate` from adaptiveAlgorithm.ts (lines 27-49): EMA update of
`mathFluency` with `alpha = 0.3`, confidence bumped by `0.1` capped at `1`. -/
def updateSkillEstimate (e : SkillEstimate) (m : PerformanceMetrics) : SkillEstimate :=
  let alpha : ℚ := 0.3
  { e with
    mathFluency := e.mathFluency * (1 - alpha) + performanceScore m * alpha
    confidence := min 1 (e.confidence + 0.1) }

/-- `calculateOptimalDifficulty` from adaptiveAlgorithm.ts (lines 55-61):
`clamp(mathFluency * 1.1, 10, 95)`. -/
def calculateOptimalDifficulty (e : SkillEstimate) : ℚ :=
  max 10 (min 95 (e.mathFluency * 1.1))

/-- Question type enumeration from `generateQuestionParameters`. -/
inductive QuestionType where
  | addition
  | subtraction
  | numberRecognition
  | sequencing
  deriving DecidableEq, Repr

/-- Return record of `generateQuestionParameters`. -/
structure QuestionParameters where
  difficulty : ℚ
  timeLimit : ℚ
  questionType : QuestionType
  numOptions : ℕ
  deriving DecidableEq, Repr

/-- `generateQuestionParameters` from adaptiveAlgorithm.ts (lines 66-112). -/
def generateQuestionParameters (e : SkillEstimate) (recent : List RecentPerf) :
    QuestionParameters :=
  let optimalDifficulty := calculateOptimalDifficulty e
  let recentAccuracy : ℚ :=
    if recent.length > 0 then
      ((recent.filter (fun p => p.correct)).length : ℚ) / (recent.length : ℚ)
    else 0.5
  let adjustedDifficulty :=
    if recentAccuracy > 0.8 then optimalDifficulty + 5
    else if recentAccuracy < 0.5 then optimalDifficulty - 5
    else optimalDifficulty
  let questionType :=
    if adjustedDifficulty < 30 then QuestionType.numberRecognition
    else if adjustedDifficulty < 50 then QuestionType.addition
    else if adjustedDifficulty < 70 then QuestionType.subtraction
    else QuestionType.sequencing
  let baseTime : ℚ := 15000
  let timeLimit := baseTime * (1 + e.processingSpeed / 100)
  { difficulty := max 10 (min 95 adjustedDifficulty)
    timeLimit := max 5000 (min 30000 timeLimit)
    questionType := questionType
    numOptions := if adjustedDifficulty < 50 then 4 else 6 }

/-- Diagnostic result record, argument of `initializeFromDiagnostic`. -/
structure DiagnosticResult where
  workingMemory : ℚ
  attention : ℚ
  processingSpeed : ℚ
  executiveFunction : ℚ
  deriving DecidableEq, Repr

/-- `initializeFromDiagnostic` from adaptiveAlgorithm.ts (lines 117-138). -/
def initializeFromDiagnostic (d : DiagnosticResult) : SkillEstimate :=
  let initialMathFluency :=
    d.workingMemory * 0.3 + d.attention * 0.2 + d.processingSpeed * 0.3 +
      d.executiveFunction * 0.2
  { workingMemory := d.workingMemory
    attention := d.attention
    processingSpeed := d.processingSpeed
    executiveFunction := d.executiveFunction
    mathFluency := initialMathFluency
    confidence := 0.5 }

/-- Claim C3: for every skill estimate and performance metrics, the
`mathFluency` returned by `updateSkillEstimate` lies (inclusively) between the
old `mathFluency` and the computed `performanceScore`, the returned confidence
equals `min 1 (confidence + 0.1)`, and (for confidence in its documented range,
at most 1) confidence never decreases. -/
theorem C3_updateSkillEstimate_ema_confidence (e : SkillEstimate) (m : PerformanceMetrics) :
    (min e.mathFluency (performanceScore m) ≤ (updateSkillEstimate e m).mathFluency ∧
      (updateSkillEstimate e m).mathFluency ≤ max e.mathFluency (performanceScore m)) ∧
    (updateSkillEstimate e m).confidence = min 1 (e.confidence + 0.1) ∧
    (e.confidence ≤ 1 → e.confidence ≤ (updateSkillEstimate e m).confidence) := by
  have hm : (updateSkillEstimate e m).mathFluency =
      e.mathFluency * (1 - (0.3 : ℚ)) + performanceScore m * 0.3 := rfl
  have hc : (updateSkillEstimate e m).confidence = min 1 (e.confidence + 0.1) := rfl
  refine ⟨⟨?_, ?_⟩, hc, ?_⟩
  · rcases le_total e.mathFluency (performanceScore m) with h | h
    · rw [min_eq_left h, hm]; linarith
    · rw [min_eq_right h, hm]; linarith
  · rcases le_total e.mathFluency (performanceScore m) with h | h
    · rw [max_eq_right h, hm]; linarith
    · rw [max_eq_left h, hm]; linarith
  · intro h1
    rw [hc]
    exact le_min (by linarith) (by linarith)

/-- Witness for C3 at a concrete estimate and metrics record. -/
theorem C3_updateSkillEstimate_ema_confidence_witness :
    (⟨0, 0, 0, 0, 0, 0⟩ : SkillEstimate).confidence ≤ 1 ∧
    (⟨0, 0, 0, 0, 0, 0⟩ : SkillEstimate).confidence ≤
      (updateSkillEstimate ⟨0, 0, 0, 0, 0, 0⟩ ⟨1, 2, 1000, 50, []⟩).confidence :=
  ⟨zero_le_one,
    (C3_updateSkillEstimate_ema_confidence ⟨0, 0, 0, 0, 0, 0⟩ ⟨1, 2, 1000, 50, []⟩).2.2
      zero_le_one⟩

/-- Claim C7: the diagnostic `{workingMemory 80, attention 70, processingSpeed 60,
executiveFunction 75}` initialises `mathFluency = 71` and `confidence = 0.5`, and
the first `generateQuestionParameters` call (empty recent-performance window)
yields difficulty `78.1 = 71 * 1.1` and question type `sequencing`. -/
theorem C7_diagnostic_to_first_question :
    (initializeFromDiagnostic ⟨80, 70, 60, 75⟩).mathFluency = 71 ∧
    (initializeFromDiagnostic ⟨80, 70, 60, 75⟩).confidence = 0.5 ∧
    (generateQuestionParameters (initializeFromDiagnostic ⟨80, 70, 60, 75⟩) []).difficulty
      = 78.1 ∧
    (generateQuestionParameters (initializeFromDiagnostic ⟨80, 70, 60, 75⟩) []).questionType
      = QuestionType.sequencing := by
  norm_num [initializeFromDiagnostic, generateQuestionParameters, calculateOptimalDifficulty,
    min_def, max_def]

/-- Counterexample to claim C8 as stated: a zero-signal update (0 correct out of
0 total, zero response time) does not leave the estimate unchanged, and applying
it twice differs from applying it once. -/
theorem C8_counterexample :
    updateSkillEstimate ⟨0, 0, 0, 0, 0, 0⟩ ⟨0, 0, 0, 0, []⟩ ≠ ⟨0, 0, 0, 0, 0, 0⟩ ∧
    updateSkillEstimate (updateSkillEstimate ⟨0, 0, 0, 0, 0, 0⟩ ⟨0, 0, 0, 0, []⟩)
        ⟨0, 0, 0, 0, []⟩ ≠
      updateSkillEstimate ⟨0, 0, 0, 0, 0, 0⟩ ⟨0, 0, 0, 0, []⟩ := by
  constructor
  · intro h
    have h1 := congrArg SkillEstimate.mathFluency h
    norm_num [updateSkillEstimate, performanceScore, accuracy, speedFactor, min_def,
      max_def] at h1
  · intro h
    have h1 := congrArg SkillEstimate.confidence h
    norm_num [updateSkillEstimate, min_def, max_def] at h1

/-- Claim C8 (amended): under zero-signal input (0 correct of 0 total) the
update is well-defined — the 0/0 division is guarded so `accuracy = 0` and
`performanceScore = 40 * speedFactor` is finite — but the estimate is left
unchanged exactly when `mathFluency` already equals the performance score and
`confidence` is already saturated at 1; in general the update moves the
estimate and is not idempotent. -/
theorem C8_zero_signal_update (e : SkillEstimate) (m : PerformanceMetrics)
    (hcor : m.correctAnswers = 0) (htot : m.totalAnswers = 0) :
    accuracy m = 0 ∧
    performanceScore m = speedFactor m * 40 ∧
    (updateSkillEstimate e m = e ↔
      e.mathFluency = performanceScore m ∧ e.confidence = 1) := by
  have ha : accuracy m = 0 := by simp [accuracy, hcor, htot]
  have hp : performanceScore m = speedFactor m * 40 := by
    rw [performanceScore, ha]; ring
  refine ⟨ha, hp, ?_, ?_⟩
  · intro h
    constructor
    · have h1 : e.mathFluency * (1 - (0.3 : ℚ)) + performanceScore m * 0.3 = e.mathFluency :=
        congrArg SkillEstimate.mathFluency h
      linarith
    · have h2 : min 1 (e.confidence + (0.1 : ℚ)) = e.confidence :=
        congrArg SkillEstimate.confidence h
      rcases min_cases (1 : ℚ) (e.confidence + 0.1) with ⟨heq, hle⟩ | ⟨heq, hlt⟩
      · rw [heq] at h2; linarith
      · rw [heq] at h2; linarith
  · rintro ⟨h1, h2⟩
    obtain ⟨w, a, ps, ef, mf, c⟩ := e
    simp only [updateSkillEstimate, SkillEstimate.mk.injEq, and_true, true_and]
    constructor
    · simp only at h1
      rw [h1]; ring
    · simp only at h2
      rw [h2]; norm_num

/-- At all-zero metrics the performance score is exactly 40 (accuracy 0,
speed factor 1). -/
theorem performanceScore_zero_metrics :
    performanceScore ⟨0, 0, 0, 0, []⟩ = 40 := by
  norm_num [performanceScore, accuracy, speedFactor, min_def, max_def]

/-- Witness for C8 (amended) at the fixed point `mathFluency = 40`,
`confidence = 1` with zero-signal metrics. -/
theorem C8_zero_signal_update_witness :
    (⟨0, 0, 0, 0, []⟩ : PerformanceMetrics).correctAnswers = 0 ∧
    (⟨0, 0, 0, 0, []⟩ : PerformanceMetrics).totalAnswers = 0 ∧
    updateSkillEstimate ⟨5, 5, 5, 5, 40, 1⟩ ⟨0, 0, 0, 0, []⟩ = ⟨5, 5, 5, 5, 40, 1⟩ :=
  ⟨rfl, rfl,
    (C8_zero_signal_update ⟨5, 5, 5, 5, 40, 1⟩ ⟨0, 0, 0, 0, []⟩ rfl rfl).2.2.mpr
      ⟨performanceScore_zero_metrics.symm, rfl⟩⟩

end Adaptive

namespace AttnCheck

/-- Check type tags from `AttentionCheckResult` in assistiveFeatures.ts. -/
inductive CheckType where
  | simple
  | catchQuestion
  | consistency
  deriving DecidableEq, Repr

/-- One recorded attention check, from `AttentionCheckResult` in assistiveFeatures.ts. -/
structure AttentionCheckResult where
  passed : Bool
  responseTime : ℚ
  timestamp : ℤ
  checkType : CheckType
  deriving DecidableEq, Repr

/-- Mutable state of `AttentionCheckSystem`: the check log, the response-time
ring buffer (≤ 20) and the interaction-timestamp ring buffer (≤ 50). -/
structure State where
  checks : List AttentionCheckResult
  responsePatterns : List ℚ
  interactionEvents : List ℤ
  deriving DecidableEq, Repr

/-- Fresh `AttentionCheckSystem` (constructor / `reset()`). -/
def initialState : State := ⟨[], [], []⟩

/-- `recordCheck` from assistiveFeatures.ts (lines 587-605): case-insensitive
string equality decides pass/fail; the result is appended to the check log. -/
def recordCheck (s : State) (userAnswer correctAnswer : String) (responseTime : ℚ)
    (timestamp : ℤ) (checkType : CheckType) : State :=
  { s with checks := s.checks ++
      [⟨userAnswer.toLower == correctAnswer.toLower, responseTime, timestamp, checkType⟩] }

/-- `recordResponse` from assistiveFeatures.ts (lines 610-617): push, then drop
the oldest entry if the buffer exceeds 20. -/
def recordResponse (s : State) (responseTime : ℚ) : State :=
  let l := s.responsePatterns ++ [responseTime]
  { s with responsePatterns := if l.length > 20 then l.tail else l }

/-- `recordInteraction` from assistiveFeatures.ts (lines 622-629): push the
timestamp, then drop the oldest entry if the buffer exceeds 50. -/
def recordInteraction (s : State) (timestamp : ℤ) : State :=
  let l := s.interactionEvents ++ [timestamp]
  { s with interactionEvents := if l.length > 50 then l.tail else l }

/-- Arithmetic mean as computed inside `detectSuspiciousPatterns` and
`detectAnomalousSpeed`: `reduce((a, b) => a + b, 0) / length`. -/
def mean (l : List ℚ) : ℚ := l.sum / l.length

/-- Population variance as computed inside `detectSuspiciousPatterns`:
`reduce((sum, rt) => sum + (rt - mean)^2, 0) / length`. -/
def variance (l : List ℚ) : ℚ :=
  (l.map (fun rt => (rt - mean l) ^ 2)).sum / l.length

/-- `detectSuspiciousPatterns` from assistiveFeatures.ts (lines 634-647).
The source tests `Math.sqrt(variance) / mean < 0.1` in IEEE arithmetic:
for `mean > 0` this is the rational condition `100 * variance < mean ^ 2`;
for `mean < 0` the quotient is negative (or `-0`), hence below `0.1`; and for
`mean = 0` the quotient is `NaN` (variance 0) or `Infinity` (variance > 0),
so the comparison is false and the detector does not flag.  The decidable
condition below reproduces exactly that behaviour; the bridge lemma
`detectSuspiciousPatterns_iff_cv` recovers the real-number CV reading on the
states where the mean is nonzero. -/
def detectSuspiciousPatterns (s : State) : Bool :=
  if s.responsePatterns.length < 5 then false
  else
    decide (mean s.responsePatterns < 0 ∨
      (0 < mean s.responsePatterns ∧
        100 * variance s.responsePatterns < mean s.responsePatterns ^ 2))

/-- `detectRapidClicking` from assistiveFeatures.ts (lines 652-660): the last
three interaction timestamps span less than 500 ms. -/
def detectRapidClicking (s : State) : Bool :=
  if s.interactionEvents.length < 3 then false
  else
    let recentEvents := s.interactionEvents.drop (s.interactionEvents.length - 3)
    decide ((recentEvents.getLast?.getD 0) - (recentEvents.head?.getD 0) < 500)

/-- `detectAnomalousSpeed` from assistiveFeatures.ts (lines 665-673): mean
response time below 300 ms or above 30000 ms over at least 3 samples. -/
def detectAnomalousSpeed (s : State) : Bool :=
  if s.responsePatterns.length < 3 then false
  else
    decide (mean s.responsePatterns < 300 ∨ mean s.responsePatterns > 30000)

/-- The quality-flag list built by `evaluateSessionQuality`, in push order. -/
def qualityFlagsOf (s : State) : List String :=
  (if s.checks.length > 0 ∧ (s.checks.filter (fun c => c.passed)).length < 2 then
    ["FAILED_ATTENTION_CHECKS"] else []) ++
  (if detectSuspiciousPatterns s then ["SUSPICIOUS_PATTERN"] else []) ++
  (if detectRapidClicking s then ["RAPID_CLICKING"] else []) ++
  (if detectAnomalousSpeed s then ["ANOMALOUS_SPEED"] else []) ++
  (if s.interactionEvents.length < 5 then ["LOW_INTERACTION"] else [])

/-- Result record of `evaluateSessionQuality`, from `SessionQualityMetrics`. -/
structure SessionQualityMetrics where
  attentionChecksPassed : ℕ
  attentionChecksFailed : ℕ
  attentionScore : ℤ
  isValidSession : Bool
  qualityFlags : List String
  deriving DecidableEq, Repr

/-- The two critical flags from `evaluateSessionQuality`. -/
def criticalFlags : List String := ["FAILED_ATTENTION_CHECKS", "SUSPICIOUS_PATTERN"]

/-- `evaluateSessionQuality` from assistiveFeatures.ts (lines 678-730). -/
def evaluateSessionQuality (s : State) : SessionQualityMetrics :=
  let passed := (s.checks.filter (fun c => c.passed)).length
  let failed := (s.checks.filter (fun c => !c.passed)).length
  let total := s.checks.length
  let qualityFlags := qualityFlagsOf s
  let baseScore : ℚ := if total > 0 then ((passed : ℚ) / (total : ℚ)) * 100 else 0
  let attentionScore : ℤ := max 0 (round (baseScore - (qualityFlags.length : ℚ) * 10))
  let hasCriticalFlag := qualityFlags.any (fun f => criticalFlags.contains f)
  { attentionChecksPassed := passed
    attentionChecksFailed := failed
    attentionScore := attentionScore
    isValidSession := decide (attentionScore ≥ 60) && !hasCriticalFlag
    qualityFlags := qualityFlags }

/-- The population variance computed by `detectSuspiciousPatterns` is nonnegative. -/
theorem variance_nonneg (l : List ℚ) : 0 ≤ variance l := by
  unfold variance
  apply div_nonneg
  · apply List.sum_nonneg
    intro x hx
    simp only [List.mem_map] at hx
    obtain ⟨rt, -, rfl⟩ := hx
    positivity
  · positivity

/-- Bridge between the decidable test used in `detectSuspiciousPatterns` and
the source formula `Math.sqrt(variance) / mean < 0.1` read over the real
numbers, on the states where the mean is nonzero (where the IEEE quotient is
an ordinary real number). -/
theorem detectSuspiciousPatterns_iff_cv (s : State)
    (h5 : 5 ≤ s.responsePatterns.length) (hm : mean s.responsePatterns ≠ 0) :
    detectSuspiciousPatterns s = true ↔
      Real.sqrt (variance s.responsePatterns : ℝ) / (mean s.responsePatterns : ℝ)
        < 0.1 := by
  rw [detectSuspiciousPatterns, if_neg (not_lt.mpr h5), decide_eq_true_eq]
  rcases lt_or_gt_of_ne hm with hneg | hpos
  · have hR : Real.sqrt (variance s.responsePatterns : ℝ) / (mean s.responsePatterns : ℝ)
        < 0.1 := by
      have hle : Real.sqrt (variance s.responsePatterns : ℝ) /
          (mean s.responsePatterns : ℝ) ≤ 0 :=
        div_nonpos_iff.mpr (Or.inl ⟨Real.sqrt_nonneg _, by exact_mod_cast hneg.le⟩)
      calc Real.sqrt (variance s.responsePatterns : ℝ) / (mean s.responsePatterns : ℝ)
          ≤ 0 := hle
        _ < 0.1 := by norm_num
    exact ⟨fun _ => hR, fun _ => Or.inl hneg⟩
  · have hmR : (0 : ℝ) < (mean s.responsePatterns : ℝ) := by exact_mod_cast hpos
    rw [div_lt_iff₀ hmR, Real.sqrt_lt' (by positivity),
      or_iff_right (not_lt.mpr hpos.le), and_iff_right hpos]
    constructor
    · intro h
      have hR : (100 : ℝ) * (variance s.responsePatterns : ℝ)
          < (mean s.responsePatterns : ℝ) ^ 2 := by exact_mod_cast h
      nlinarith [hR]
    · intro h
      have hR : (variance s.responsePatterns : ℝ)
          < ((0.1 : ℝ) * (mean s.responsePatterns : ℝ)) ^ 2 := h
      have : (100 : ℝ) * (variance s.responsePatterns : ℝ)
          < (mean s.responsePatterns : ℝ) ^ 2 := by nlinarith [hR]
      exact_mod_cast this

/-- When the retained response times have mean zero the JS quotient is `NaN`
or `Infinity` and the detector never flags. -/
theorem detectSuspiciousPatterns_mean_zero (s : State)
    (hm : mean s.responsePatterns = 0) : detectSuspiciousPatterns s = false := by
  rw [detectSuspiciousPatterns]
  split_ifs
  · rfl
  · simp [hm]

/-- Membership of a critical flag in the flag list, unfolded to the two named
critical flags. -/
theorem any_critical_iff (flags : List String) :
    (flags.any fun f => criticalFlags.contains f) = true ↔
      "FAILED_ATTENTION_CHECKS" ∈ flags ∨ "SUSPICIOUS_PATTERN" ∈ flags := by
  simp only [List.any_eq_true]
  constructor
  · rintro ⟨f, hf, hc⟩
    have hmem : f ∈ criticalFlags := List.elem_iff.mp hc
    simp only [criticalFlags, List.mem_cons, List.not_mem_nil, or_false] at hmem
    rcases hmem with rfl | rfl
    · exact Or.inl hf
    · exact Or.inr hf
  · rintro (h | h)
    · exact ⟨_, h, List.elem_iff.mpr (by simp [criticalFlags])⟩
    · exact ⟨_, h, List.elem_iff.mpr (by simp [criticalFlags])⟩

/-- Claim C1: `isValidSession` holds exactly when the computed attention score
is at least 60 and neither critical flag is present; and after 3 recorded
checks with exactly 1 pass, the evaluation reports `attentionChecksPassed = 1`,
raises `FAILED_ATTENTION_CHECKS`, and is invalid regardless of the raw score. -/
theorem C1_session_validity (s : State) :
    ((evaluateSessionQuality s).isValidSession = true ↔
      (60 ≤ (evaluateSessionQuality s).attentionScore ∧
        "FAILED_ATTENTION_CHECKS" ∉ (evaluateSessionQuality s).qualityFlags ∧
        "SUSPICIOUS_PATTERN" ∉ (evaluateSessionQuality s).qualityFlags)) ∧
    (s.checks.length = 3 → (s.checks.filter (fun c => c.passed)).length = 1 →
      (evaluateSessionQuality s).attentionChecksPassed = 1 ∧
      "FAILED_ATTENTION_CHECKS" ∈ (evaluateSessionQuality s).qualityFlags ∧
      (evaluateSessionQuality s).isValidSession = false) := by
  have hval : (evaluateSessionQuality s).isValidSession =
      (decide (60 ≤ (evaluateSessionQuality s).attentionScore) &&
        !((qualityFlagsOf s).any fun f => criticalFlags.contains f)) := rfl
  have hflags : (evaluateSessionQuality s).qualityFlags = qualityFlagsOf s := rfl
  constructor
  · rw [hval, hflags, Bool.and_eq_true, decide_eq_true_eq, Bool.not_eq_true']
    rw [← Bool.not_eq_true, any_critical_iff, not_or]
  · intro h3 h1
    have hcond : s.checks.length > 0 ∧ (s.checks.filter (fun c => c.passed)).length < 2 := by
      omega
    have hflag : "FAILED_ATTENTION_CHECKS" ∈ qualityFlagsOf s := by
      rw [qualityFlagsOf, if_pos hcond]
      simp
    have hany : ((qualityFlagsOf s).any fun f => criticalFlags.contains f) = true :=
      (any_critical_iff _).mpr (Or.inl hflag)
    refine ⟨h1, hflags ▸ hflag, ?_⟩
    rw [hval, hany]
    simp

/-- Witness for C1: a session of three checks of which exactly the first
passed. -/
theorem C1_session_validity_witness :
    (⟨[⟨true, 500, 0, .simple⟩, ⟨false, 600, 0, .simple⟩, ⟨false, 700, 0, .simple⟩],
        [], []⟩ : State).checks.length = 3 ∧
    ((⟨[⟨true, 500, 0, .simple⟩, ⟨false, 600, 0, .simple⟩, ⟨false, 700, 0, .simple⟩],
        [], []⟩ : State).checks.filter (fun c => c.passed)).length = 1 ∧
    (evaluateSessionQuality
        ⟨[⟨true, 500, 0, .simple⟩, ⟨false, 600, 0, .simple⟩, ⟨false, 700, 0, .simple⟩],
          [], []⟩).isValidSession = false :=
  ⟨rfl, rfl,
    ((C1_session_validity
      ⟨[⟨true, 500, 0, .simple⟩, ⟨false, 600, 0, .simple⟩, ⟨false, 700, 0, .simple⟩],
        [], []⟩).2 rfl rfl).2.2⟩

/-- Claim C10: with fewer than 2 passed checks — in particular with no checks
at all, or with a single passed check — the session is always invalid. -/
theorem C10_insufficient_passes_invalid (s : State)
    (h : (s.checks.filter (fun c => c.passed)).length < 2) :
    (evaluateSessionQuality s).isValidSession = false := by
  have hval : (evaluateSessionQuality s).isValidSession =
      (decide (60 ≤ (evaluateSessionQuality s).attentionScore) &&
        !((qualityFlagsOf s).any fun f => criticalFlags.contains f)) := rfl
  rcases Nat.eq_zero_or_pos s.checks.length with h0 | hpos
  · have hbase : (if s.checks.length > 0 then
        (((s.checks.filter (fun c => c.passed)).length : ℚ) / (s.checks.length : ℚ)) * 100
        else 0) = 0 := by
      rw [if_neg]; omega
    have hatt : (evaluateSessionQuality s).attentionScore ≤ 0 := by
      show max 0 (round ((if s.checks.length > 0 then
        (((s.checks.filter (fun c => c.passed)).length : ℚ) / (s.checks.length : ℚ)) * 100
        else 0) - ((qualityFlagsOf s).length : ℚ) * 10)) ≤ 0
      rw [hbase]
      have hk : (0 : ℚ) ≤ ((qualityFlagsOf s).length : ℚ) * 10 := by positivity
      have harg : (0 : ℚ) - ((qualityFlagsOf s).length : ℚ) * 10 ≤ 0 := by linarith
      have hround : round ((0 : ℚ) - ((qualityFlagsOf s).length : ℚ) * 10) ≤ 0 := by
        rw [round_eq]
        calc ⌊(0 : ℚ) - ((qualityFlagsOf s).length : ℚ) * 10 + 1 / 2⌋
            ≤ ⌊(1 / 2 : ℚ)⌋ := Int.floor_le_floor (by linarith)
          _ = 0 := by norm_num
      exact max_le le_rfl hround
    rw [hval, decide_eq_false (by omega : ¬ 60 ≤ (evaluateSessionQuality s).attentionScore)]
    simp
  · have hflag : "FAILED_ATTENTION_CHECKS" ∈ qualityFlagsOf s := by
      rw [qualityFlagsOf, if_pos ⟨hpos, h⟩]
      simp
    have hany : ((qualityFlagsOf s).any fun f => criticalFlags.contains f) = true :=
      (any_critical_iff _).mpr (Or.inl hflag)
    rw [hval, hany]
    simp

/-- Witness for C10: the empty session (no checks), and a session whose single
check was answered correctly, are both invalid. -/
theorem C10_insufficient_passes_invalid_witness :
    ((initialState.checks.filter (fun c => c.passed)).length < 2 ∧
      (evaluateSessionQuality initialState).isValidSession = false) ∧
    (((⟨[⟨true, 500, 0, .simple⟩], [], []⟩ : State).checks.filter
        (fun c => c.passed)).length < 2 ∧
      (evaluateSessionQuality ⟨[⟨true, 500, 0, .simple⟩], [], []⟩).isValidSession = false) :=
  ⟨⟨by decide, C10_insufficient_passes_invalid initialState (by decide)⟩,
    ⟨by decide, C10_insufficient_passes_invalid ⟨[⟨true, 500, 0, .simple⟩], [], []⟩
      (by decide)⟩⟩

/-- Counterexample to claim C6 as stated: after recording the five response
times 0, 0, 0, 0, 0 the coefficient of variation `√variance / mean` reads
below 0.1 over the reals (mean 0, variance 0), yet the detector does not flag
— the JS quotient at mean 0 is `NaN`, and `NaN < 0.1` is false. -/
theorem C6_counterexample :
    5 ≤ (List.foldl recordResponse initialState [0, 0, 0, 0, 0]).responsePatterns.length ∧
    Real.sqrt (variance
        (List.foldl recordResponse initialState [0, 0, 0, 0, 0]).responsePatterns : ℝ) /
      (mean (List.foldl recordResponse initialState [0, 0, 0, 0, 0]).responsePatterns : ℝ)
      < 0.1 ∧
    detectSuspiciousPatterns (List.foldl recordResponse initialState [0, 0, 0, 0, 0])
      = false := by
  have hfold : (List.foldl recordResponse initialState
      [0, 0, 0, 0, 0]).responsePatterns = [0, 0, 0, 0, 0] := by
    simp [List.foldl, recordResponse, initialState]
  refine ⟨by rw [hfold]; decide, ?_, ?_⟩
  · rw [hfold]
    norm_num [mean, variance]
  · apply detectSuspiciousPatterns_mean_zero
    rw [hfold]
    norm_num [mean]

/-- Claim C6 (amended): with at least 5 retained response times whose mean is
nonzero, the suspicious-pattern detector fires exactly when the coefficient of
variation (stddev over mean) is below 0.1; when the mean is zero the IEEE
quotient is `NaN` or `Infinity` and it never fires; with fewer than 5 samples
it never fires; and it fires on the recorded response times
500, 520, 510, 505, 515. -/
theorem C6_suspicious_pattern_detection (s : State) :
    (5 ≤ s.responsePatterns.length → mean s.responsePatterns ≠ 0 →
      (detectSuspiciousPatterns s = true ↔
        Real.sqrt (variance s.responsePatterns : ℝ) / (mean s.responsePatterns : ℝ)
          < 0.1)) ∧
    (mean s.responsePatterns = 0 → detectSuspiciousPatterns s = false) ∧
    (s.responsePatterns.length < 5 → detectSuspiciousPatterns s = false) ∧
    detectSuspiciousPatterns
      (List.foldl recordResponse initialState [500, 520, 510, 505, 515]) = true := by
  refine ⟨fun h5 hm => detectSuspiciousPatterns_iff_cv s h5 hm,
    fun hm => detectSuspiciousPatterns_mean_zero s hm, fun hlt => ?_, ?_⟩
  · rw [detectSuspiciousPatterns, if_pos hlt]
  · have hfold : (List.foldl recordResponse initialState
        [500, 520, 510, 505, 515]).responsePatterns = [500, 520, 510, 505, 515] := by
      simp [List.foldl, recordResponse, initialState]
    rw [detectSuspiciousPatterns, hfold]
    norm_num [mean, variance, decide_eq_true_eq]

/-- The five-sample witness state for C6 has nonzero mean (it is 510). -/
theorem c6_witness_mean_ne_zero :
    mean ((⟨[], [500, 520, 510, 505, 515], []⟩ : State).responsePatterns) ≠ 0 := by
  norm_num [mean]

/-- A five-sample state with zero mean but positive variance (the `Infinity`
branch of the JS quotient). -/
theorem c6_witness_mean_zero :
    mean ((⟨[], [300, 0, 0, 0, -300], []⟩ : State).responsePatterns) = 0 := by
  norm_num [mean]

/-- Witness for C6 (amended): a five-sample state with nonzero mean (where the
CV characterisation applies), a five-sample state with zero mean (never
flagged), and the empty state (fewer than 5 samples, never flagged). -/
theorem C6_suspicious_pattern_detection_witness :
    (5 ≤ (⟨[], [500, 520, 510, 505, 515], []⟩ : State).responsePatterns.length ∧
      mean ((⟨[], [500, 520, 510, 505, 515], []⟩ : State).responsePatterns) ≠ 0 ∧
      (detectSuspiciousPatterns ⟨[], [500, 520, 510, 505, 515], []⟩ = true ↔
        Real.sqrt (variance (⟨[], [500, 520, 510, 505, 515], []⟩ :
            State).responsePatterns : ℝ) /
          (mean (⟨[], [500, 520, 510, 505, 515], []⟩ : State).responsePatterns : ℝ)
          < 0.1)) ∧
    (mean ((⟨[], [300, 0, 0, 0, -300], []⟩ : State).responsePatterns) = 0 ∧
      detectSuspiciousPatterns ⟨[], [300, 0, 0, 0, -300], []⟩ = false) ∧
    (initialState.responsePatterns.length < 5 ∧
      detectSuspiciousPatterns initialState = false) :=
  ⟨⟨by decide, c6_witness_mean_ne_zero,
    (C6_suspicious_pattern_detection ⟨[], [500, 520, 510, 505, 515], []⟩).1
      (by decide) c6_witness_mean_ne_zero⟩,
    ⟨c6_witness_mean_zero,
      (C6_suspicious_pattern_detection ⟨[], [300, 0, 0, 0, -300], []⟩).2.1
        c6_witness_mean_zero⟩,
    ⟨by decide, (C6_suspicious_pattern_detection initialState).2.2.1 (by decide)⟩⟩

end AttnCheck

/-- Rounding (JS `Math.round`, Lean `round`, both `⌊x + 1/2⌋`) of a nonnegative
number is nonnegative. -/
theorem round_nonneg_of_nonneg {α : Type} [LinearOrderedField α] [FloorRing α] {x : α}
    (h : 0 ≤ x) : 0 ≤ round x := by
  rw [round_eq]
  have h1 : (0 : α) + 1 / 2 ≤ x + 1 / 2 := by linarith
  have h3 := Int.floor_le_floor h1
  have h4 : ⌊(0 : α) + 1 / 2⌋ = 0 := by norm_num
  omega

/-- Rounding a number bounded by an integer stays bounded by that integer. -/
theorem round_le_int {α : Type} [LinearOrderedField α] [FloorRing α] {x : α} {n : ℤ}
    (h : x ≤ (n : α)) : round x ≤ n := by
  rw [round_eq]
  have h2 : ⌊x + 1 / 2⌋ < n + 1 := by
    apply Int.floor_lt.mpr
    push_cast
    linarith
  omega

namespace ET

/-- One engagement snapshot, from `EngagementSnapshot` in engagementTracker.ts. -/
structure Snapshot where
  timestamp : ℤ
  isFocused : Bool
  mouseX : ℚ
  mouseY : ℚ
  hasInteraction : Bool
  deriving DecidableEq, Repr

/-- Mutable state of `EngagementTracker`.  The float accumulator
`totalMouseDistance` is represented exactly as `mouseSegments`, the list of
squared pixel distances of the accepted moves; the accumulated distance is the
sum of their square roots (`totalMouseDistance` below). -/
structure State where
  startTime : ℤ
  lastFocusTime : ℤ
  lastMousePos : ℚ × ℚ
  mouseSegments : List ℚ
  interactionCount : ℕ
  isFocused : Bool
  focusStartTime : ℤ
  totalFocusTime : ℤ
  snapshots : List Snapshot
  lastSnapshotTime : ℤ
  deriving DecidableEq, Repr

/-- Constructor state of `EngagementTracker` (also `reset()`): all counters
zero, focused, `lastSnapshotTime = 0`. -/
def initState (now : ℤ) : State :=
  ⟨now, now, (0, 0), [], 0, true, now, 0, [], 0⟩

/-- Accumulated mouse distance: the sum of the Euclidean lengths
(`Math.sqrt` of each accepted squared step). -/
noncomputable def totalMouseDistance (s : State) : ℝ :=
  (s.mouseSegments.map (fun d => Real.sqrt (d : ℝ))).sum

/-- The focus handler from engagementTracker.ts (lines 52-57). -/
def handleFocus (s : State) (now : ℤ) : State :=
  if s.isFocused then s else { s with isFocused := true, focusStartTime := now }

/-- The blur handler from engagementTracker.ts (lines 59-64). -/
def handleBlur (s : State) (now : ℤ) : State :=
  if s.isFocused then
    { s with isFocused := false, totalFocusTime := s.totalFocusTime + (now - s.focusStartTime) }
  else s

/-- `trackMouse` from engagementTracker.ts (lines 67-94).  The source tests
`Math.sqrt(dist2) > 5`; equivalently (lemma `sqrt_gt_five_iff`) `dist2 > 25`,
which keeps the branch decidable.  A snapshot is appended when at least 2000 ms
elapsed since the last one, and the buffer is trimmed to 30 entries. -/
def trackMouse (s : State) (now : ℤ) (x y : ℚ) : State :=
  let dist2 := (x - s.lastMousePos.1) ^ 2 + (y - s.lastMousePos.2) ^ 2
  let s1 := if dist2 > 25 then
      { s with mouseSegments := s.mouseSegments ++ [dist2], lastMousePos := (x, y) }
    else s
  if 2000 ≤ now - s1.lastSnapshotTime then
    let pushed := s1.snapshots ++ [⟨now, s1.isFocused, x, y, false⟩]
    { s1 with
      snapshots := if pushed.length > 30 then pushed.tail else pushed
      lastSnapshotTime := now }
  else s1

/-- Mark the most recent snapshot as having an interaction (if any). -/
def markLastInteraction : List Snapshot → List Snapshot
  | [] => []
  | [a] => [{ a with hasInteraction := true }]
  | a :: b :: rest => a :: markLastInteraction (b :: rest)

/-- `trackInteraction` from engagementTracker.ts (lines 97-105). -/
def trackInteraction (s : State) : State :=
  { s with
    interactionCount := s.interactionCount + 1
    snapshots := markLastInteraction s.snapshots }

/-- Events driving the tracker: mouse moves, interactions, and window
focus/blur (or visibility) transitions. -/
inductive Ev where
  | mouse (x y : ℚ)
  | interaction
  | focus
  | blur
  deriving DecidableEq, Repr

/-- One timed event applied to the state. -/
def step (s : State) (e : ℤ × Ev) : State :=
  match e.2 with
  | .mouse x y => trackMouse s e.1 x y
  | .interaction => trackInteraction s
  | .focus => handleFocus s e.1
  | .blur => handleBlur s e.1

/-- Run a trace of timed events from a fresh tracker created at `t0`. -/
def run (t0 : ℤ) (tr : List (ℤ × Ev)) : State :=
  tr.foldl step (initState t0)

/-- Event times are nondecreasing starting from `t`. -/
def chronB : ℤ → List (ℤ × Ev) → Bool
  | _, [] => true
  | t, (u, _) :: rest => decide (t ≤ u) && chronB u rest

/-- Time of the last event (or `t` for the empty trace). -/
def endTime : ℤ → List (ℤ × Ev) → ℤ
  | t, [] => t
  | _, (u, _) :: rest => endTime u rest

/-- Metrics record returned by `getMetrics`, from `EngagementMetrics`. -/
structure Metrics where
  focusTime : ℤ
  activeTime : ℤ
  interactionCount : ℕ
  mouseMovement : ℝ
  attentionScore : ℤ
  engagementScore : ℤ

/-- Current focus time: the accumulated focus time plus the running focused
interval (`getMetrics`, lines 112-116). -/
def currentFocusTime (s : State) (now : ℤ) : ℤ :=
  s.totalFocusTime + (if s.isFocused then now - s.focusStartTime else 0)

/-- Focus fraction `currentFocusTime / totalTime` with the `totalTime > 0`
guard (`getMetrics`, line 119). -/
def focusFrac (s : State) (now : ℤ) : ℚ :=
  if now - s.startTime > 0 then
    ((currentFocusTime s now : ℤ) : ℚ) / ((now - s.startTime : ℤ) : ℚ)
  else 0

/-- Unrounded attention score `min(100, focusRatio * 100)` (`getMetrics`, line 120). -/
def attentionRaw (s : State) (now : ℤ) : ℚ :=
  min 100 (focusFrac s now * 100)

/-- Interaction rate `(count / (totalTime/1000)) * 10` with the `totalTime > 0`
guard (`getMetrics`, line 124). -/
def interactionRate (s : State) (now : ℤ) : ℚ :=
  if now - s.startTime > 0 then
    ((s.interactionCount : ℚ) / (((now - s.startTime : ℤ) : ℚ) / 1000)) * 10
  else 0

/-- Normalised mouse activity `min(100, (distance/1000) * 10)` (`getMetrics`, line 125). -/
noncomputable def mouseActivity (s : State) : ℝ :=
  min 100 ((totalMouseDistance s / 1000) * 10)

/-- Unrounded engagement score (`getMetrics`, lines 127-131):
40% attention, 30% capped interaction rate, 30% mouse activity, capped at 100. -/
noncomputable def engagementRaw (s : State) (now : ℤ) : ℝ :=
  min 100 ((attentionRaw s now : ℝ) * 0.4 +
    ((min 100 (interactionRate s now * 10) : ℚ) : ℝ) * 0.3 + mouseActivity s * 0.3)

/-- `getMetrics` from engagementTracker.ts (lines 108-141). -/
noncomputable def getMetrics (s : State) (now : ℤ) : Metrics :=
  { focusTime := currentFocusTime s now
    activeTime := now - s.startTime
    interactionCount := s.interactionCount
    mouseMovement := totalMouseDistance s
    attentionScore := round (attentionRaw s now)
    engagementScore := round (engagementRaw s now) }

/-- The source's mouse-move test `Math.sqrt(d) > 5` coincides with the
rational test `d > 25` used in `trackMouse`. -/
theorem sqrt_gt_five_iff (d : ℚ) : 5 < Real.sqrt (d : ℝ) ↔ 25 < d := by
  rw [Real.lt_sqrt (by norm_num : (0 : ℝ) ≤ 5), show ((5 : ℝ) ^ 2) = 25 by norm_num]
  exact_mod_cast Iff.rfl

/-- Accumulated mouse distance is nonnegative. -/
theorem totalMouseDistance_nonneg (s : State) : 0 ≤ totalMouseDistance s := by
  apply List.sum_nonneg
  intro x hx
  simp only [List.mem_map] at hx
  obtain ⟨d, -, rfl⟩ := hx
  exact Real.sqrt_nonneg _

/-- State invariant at time `t`: nonnegative accumulated focus time, and a
focus interval that started no later than `t`. -/
def Inv (t : ℤ) (s : State) : Prop :=
  0 ≤ s.totalFocusTime ∧ (s.isFocused = true → s.focusStartTime ≤ t)

/-- The invariant is monotone in time. -/
theorem inv_mono {t u : ℤ} {s : State} (h : Inv t s) (hle : t ≤ u) : Inv u s :=
  ⟨h.1, fun hf => le_trans (h.2 hf) hle⟩

/-- `trackMouse` does not touch the focus bookkeeping. -/
theorem trackMouse_focus_fields (s : State) (now : ℤ) (x y : ℚ) :
    (trackMouse s now x y).totalFocusTime = s.totalFocusTime ∧
    (trackMouse s now x y).isFocused = s.isFocused ∧
    (trackMouse s now x y).focusStartTime = s.focusStartTime := by
  simp only [trackMouse]
  split_ifs <;> simp

/-- Every step taken at time `u ≥ t` preserves the invariant. -/
theorem step_inv {s : State} {t u : ℤ} {e : Ev} (hle : t ≤ u) (h : Inv t s) :
    Inv u (step s (u, e)) := by
  have h' : Inv u s := inv_mono h hle
  cases e with
  | mouse x y =>
      obtain ⟨h1, h2, h3⟩ := trackMouse_focus_fields s u x y
      exact ⟨h1 ▸ h'.1, fun hx => h3 ▸ h'.2 (h2 ▸ hx)⟩
  | interaction => exact ⟨h'.1, fun hx => h'.2 hx⟩
  | focus =>
      show Inv u (handleFocus s u)
      rw [handleFocus]
      split_ifs with hf
      · exact h'
      · exact ⟨h'.1, fun _ => le_refl u⟩
  | blur =>
      show Inv u (handleBlur s u)
      rw [handleBlur]
      split_ifs with hf
      · refine ⟨?_, fun hx => by simp at hx⟩
        have := h'.2 hf
        have := h'.1
        simp only
        omega
      · exact h'

/-- The invariant holds along any chronological fold. -/
theorem foldl_inv : ∀ (tr : List (ℤ × Ev)) {t : ℤ} {s : State},
    chronB t tr = true → Inv t s → Inv (endTime t tr) (List.foldl step s tr) := by
  intro tr
  induction tr with
  | nil => intro t s _ hs; exact hs
  | cons e rest ih =>
      intro t s hc hs
      obtain ⟨u, ev⟩ := e
      rw [chronB, Bool.and_eq_true, decide_eq_true_eq] at hc
      exact ih hc.2 (step_inv hc.1 hs)

/-- The invariant holds for every chronological run. -/
theorem run_inv (t0 : ℤ) (tr : List (ℤ × Ev)) (h : chronB t0 tr = true) :
    Inv (endTime t0 tr) (run t0 tr) :=
  foldl_inv tr h ⟨le_refl 0, fun _ => le_refl t0⟩

/-- Under the invariant, both reported scores are clamped to [0, 100]. -/
theorem getMetrics_bounds (s : State) (now : ℤ) (h : Inv now s) :
    0 ≤ (getMetrics s now).attentionScore ∧ (getMetrics s now).attentionScore ≤ 100 ∧
    0 ≤ (getMetrics s now).engagementScore ∧ (getMetrics s now).engagementScore ≤ 100 := by
  have hcf : 0 ≤ currentFocusTime s now := by
    rw [currentFocusTime]
    rcases hb : s.isFocused with - | -
    · simpa [hb] using h.1
    · have := h.2 hb
      have := h.1
      simp only [hb, if_pos]
      omega
  have hff : 0 ≤ focusFrac s now := by
    rw [focusFrac]
    split_ifs with hT
    · apply div_nonneg
      · exact_mod_cast hcf
      · exact_mod_cast hT.le
    · exact le_refl 0
  have hatt0 : 0 ≤ attentionRaw s now :=
    le_min (by norm_num) (mul_nonneg hff (by norm_num))
  have hatt100 : attentionRaw s now ≤ 100 := min_le_left _ _
  have hir : 0 ≤ interactionRate s now := by
    rw [interactionRate]
    split_ifs with hT
    · have h1 : (0 : ℚ) < ((now - s.startTime : ℤ) : ℚ) := by exact_mod_cast hT
      positivity
    · exact le_refl 0
  have hma0 : 0 ≤ mouseActivity s :=
    le_min (by norm_num)
      (mul_nonneg (div_nonneg (totalMouseDistance_nonneg s) (by norm_num)) (by norm_num))
  have heng0 : 0 ≤ engagementRaw s now := by
    refine le_min (by norm_num) ?_
    have c1 : (0 : ℝ) ≤ (attentionRaw s now : ℝ) := by exact_mod_cast hatt0
    have c2 : (0 : ℝ) ≤ ((min 100 (interactionRate s now * 10) : ℚ) : ℝ) := by
      have : (0 : ℚ) ≤ min 100 (interactionRate s now * 10) :=
        le_min (by norm_num) (by positivity)
      exact_mod_cast this
    have c3 := hma0
    positivity
  have heng100 : engagementRaw s now ≤ 100 := min_le_left _ _
  refine ⟨round_nonneg_of_nonneg hatt0, ?_, round_nonneg_of_nonneg heng0, ?_⟩
  · exact round_le_int (by exact_mod_cast hatt100)
  · exact round_le_int (by exact_mod_cast heng100)

/-- `markLastInteraction` preserves the buffer length. -/
theorem markLastInteraction_length (l : List Snapshot) :
    (markLastInteraction l).length = l.length := by
  induction l with
  | nil => rfl
  | cons a rest ih =>
      cases rest with
      | nil => rfl
      | cons b r => simpa [markLastInteraction] using ih

/-- Every step keeps the snapshot buffer within 30 entries. -/
theorem step_snapshots_le (s : State) (e : ℤ × Ev) (h : s.snapshots.length ≤ 30) :
    (step s e).snapshots.length ≤ 30 := by
  obtain ⟨u, ev⟩ := e
  cases ev with
  | mouse x y =>
      show (trackMouse s u x y).snapshots.length ≤ 30
      simp only [trackMouse]
      split_ifs <;> simp_all
  | interaction =>
      simpa [step, trackInteraction, markLastInteraction_length] using h
  | focus =>
      show (handleFocus s u).snapshots.length ≤ 30
      rw [handleFocus]; split_ifs <;> simpa using h
  | blur =>
      show (handleBlur s u).snapshots.length ≤ 30
      rw [handleBlur]; split_ifs <;> simpa using h

/-- Any run retains at most 30 snapshots. -/
theorem run_snapshots_le (t0 : ℤ) (tr : List (ℤ × Ev)) :
    (run t0 tr).snapshots.length ≤ 30 := by
  rw [run]
  have : ∀ (l : List (ℤ × Ev)) (s : State), s.snapshots.length ≤ 30 →
      (List.foldl step s l).snapshots.length ≤ 30 := by
    intro l
    induction l with
    | nil => intro s hs; exact hs
    | cons e rest ih => intro s hs; exact ih _ (step_snapshots_le s e hs)
  exact this tr (initState t0) (by simp [initState])

/-- Appending to a nonempty list commutes with `tail`. -/
theorem tail_append_singleton {α : Type} (l : List α) (a : α) (h : l ≠ []) :
    (l ++ [a]).tail = l.tail ++ [a] := by
  cases l with
  | nil => exact absurd rfl h
  | cons x xs => rfl

/-- FIFO eviction: on a full buffer, a due snapshot evicts exactly the oldest
entry and appends the new one. -/
theorem trackMouse_fifo (s : State) (now : ℤ) (x y : ℚ)
    (hfull : s.snapshots.length = 30) (helapsed : 2000 ≤ now - s.lastSnapshotTime) :
    (trackMouse s now x y).snapshots =
      s.snapshots.tail ++ [⟨now, s.isFocused, x, y, false⟩] := by
  have hne : s.snapshots ≠ [] := by
    intro hnil; rw [hnil] at hfull; simp at hfull
  simp only [trackMouse]
  by_cases h1 : ((x - s.lastMousePos.1) ^ 2 + (y - s.lastMousePos.2) ^ 2) > 25
  · rw [if_pos h1]
    dsimp only
    rw [if_pos helapsed]
    dsimp only
    rw [if_pos (by simp [hfull])]
    exact tail_append_singleton _ _ hne
  · rw [if_neg h1]
    rw [if_pos helapsed]
    dsimp only
    rw [if_pos (by simp [hfull])]
    exact tail_append_singleton _ _ hne

end ET

namespace AET

/-- One gaze sample as produced by the external eye tracker. -/
structure EyeGazePoint where
  x : ℚ
  y : ℚ
  timestamp : ℤ
  confidence : ℚ
  deriving DecidableEq, Repr

/-- One snapshot, from `EngagementSnapshot` in advancedEngagementTracker.ts. -/
structure Snapshot where
  timestamp : ℤ
  isFocused : Bool
  mouseX : ℚ
  mouseY : ℚ
  hasInteraction : Bool
  eyeGaze : Option EyeGazePoint
  fixationDuration : ℚ
  attentionScore : ℤ
  engagementScore : ℤ
  frustrationLevel : ℤ
  deriving DecidableEq, Repr

/-- Configurable thresholds, from `AdaptiveThresholds`. -/
structure Thresholds where
  minAttentionScore : ℚ
  criticalAttentionScore : ℚ
  minEngagementScore : ℚ
  criticalEngagementScore : ℚ
  maxFrustrationLevel : ℚ
  criticalFrustrationLevel : ℚ
  recommendedSessionLength : ℚ
  maxSessionLength : ℚ
  breakFrequency : ℚ
  deriving DecidableEq, Repr

/-- Default thresholds from advancedEngagementTracker.ts (lines 92-102). -/
def defaultThresholds : Thresholds := ⟨50, 30, 55, 35, 60, 80, 25, 45, 20⟩

/-- Mutable state of `AdvancedEngagementTracker`.  As in `ET.State`, the mouse
distance accumulator is the sum of square roots of `mouseSegments`.  The
external eye tracker (spec: a perceptual library consumed as a numeric feature
producer) is modelled by the `eye...` fields holding its current outputs. -/
structure State where
  startTime : ℤ
  lastFocusTime : ℤ
  lastMousePos : ℚ × ℚ
  mouseSegments : List ℚ
  interactionCount : ℕ
  isFocused : Bool
  focusStartTime : ℤ
  totalFocusTime : ℤ
  snapshots : List Snapshot
  lastSnapshotTime : ℤ
  eyeTrackingEnabled : Bool
  eyeAttentionScore : ℚ
  eyeAvgFixationDuration : ℚ
  eyeGazeDispersion : ℚ
  eyeVelocityMap : List ℚ
  eyeGazeData : List EyeGazePoint
  eyeFixationDurations : List ℚ
  audioEngagementScore : ℚ
  speechRate : ℚ
  responseLatency : ℚ
  frustrationLevel : ℚ
  confusionLevel : ℚ
  thresholds : Thresholds
  deriving DecidableEq, Repr

/-- Constructor state of `AdvancedEngagementTracker` (also `reset()`). -/
def initState (now : ℤ) : State :=
  ⟨now, now, (0, 0), [], 0, true, now, 0, [], 0, false, 0, 0, 0, [], [], [], 0, 0, 0, 0, 0,
    defaultThresholds⟩

/-- Accumulated mouse distance (sum of Euclidean step lengths). -/
noncomputable def totalMouseDistance (s : State) : ℝ :=
  (s.mouseSegments.map (fun d => Real.sqrt (d : ℝ))).sum

/-- Focus handler from advancedEngagementTracker.ts (lines 153-158). -/
def handleFocus (s : State) (now : ℤ) : State :=
  if s.isFocused then s else { s with isFocused := true, focusStartTime := now }

/-- Blur handler from advancedEngagementTracker.ts (lines 160-165). -/
def handleBlur (s : State) (now : ℤ) : State :=
  if s.isFocused then
    { s with isFocused := false, totalFocusTime := s.totalFocusTime + (now - s.focusStartTime) }
  else s

/-- Engagement classification levels. -/
inductive Level where
  | high
  | medium
  | low
  | critical
  deriving DecidableEq, Repr

/-- Metrics record from `EngagementMetrics` in advancedEngagementTracker.ts. -/
structure Metrics where
  focusTime : ℤ
  activeTime : ℤ
  interactionCount : ℕ
  mouseMovement : ℝ
  eyeTrackingScore : ℚ
  avgFixationDuration : ℚ
  gazeDispersion : ℚ
  saccadeVelocity : ℚ
  audioEngagementScore : ℚ
  speechRate : ℚ
  responseLatency : ℚ
  attentionScore : ℤ
  engagementScore : ℤ
  frustrationLevel : ℤ
  confusionLevel : ℤ
  engagementLevel : Level

/-- Current focus time (`getMetrics`, lines 249-252). -/
def currentFocusTime (s : State) (now : ℤ) : ℤ :=
  s.totalFocusTime + (if s.isFocused then now - s.focusStartTime else 0)

/-- Focus fraction with `totalTime > 0` guard (`getMetrics`, line 255). -/
def focusFrac (s : State) (now : ℤ) : ℚ :=
  if now - s.startTime > 0 then
    ((currentFocusTime s now : ℤ) : ℚ) / ((now - s.startTime : ℤ) : ℚ)
  else 0

/-- Base focus score `min(100, focusRatio * 100)` (`getMetrics`, line 256). -/
def baseFocusScore (s : State) (now : ℤ) : ℚ :=
  min 100 (focusFrac s now * 100)

/-- Eye-tracking attention score: the external tracker's output when enabled,
otherwise 0 (`getMetrics`, lines 259-265). -/
def eyeScore (s : State) : ℚ :=
  if s.eyeTrackingEnabled then s.eyeAttentionScore else 0

/-- Combined attention score: 30% window focus + 70% eye score when eye
tracking is on, pure focus score otherwise (`getMetrics`, lines 277-279). -/
def attentionRaw (s : State) (now : ℤ) : ℚ :=
  if s.eyeTrackingEnabled then baseFocusScore s now * 0.3 + eyeScore s * 0.7
  else baseFocusScore s now

/-- Interaction rate with `totalTime > 0` guard (`getMetrics`, lines 282-283). -/
def interactionRate (s : State) (now : ℤ) : ℚ :=
  if now - s.startTime > 0 then
    ((s.interactionCount : ℚ) / (((now - s.startTime : ℤ) : ℚ) / 1000)) * 10
  else 0

/-- Normalised mouse activity (`getMetrics`, line 284). -/
noncomputable def mouseActivity (s : State) : ℝ :=
  min 100 ((totalMouseDistance s / 1000) * 10)

/-- Multimodal engagement score (`getMetrics`, lines 288-295): attention 40%,
capped interaction rate 20%, mouse 10%, audio 20%, inverted frustration 10%,
capped at 100. -/
noncomputable def engagementRaw (s : State) (now : ℤ) : ℝ :=
  min 100 ((attentionRaw s now : ℝ) * 0.4 +
    ((min 100 (interactionRate s now * 10) : ℚ) : ℝ) * 0.2 +
    mouseActivity s * 0.1 +
    (s.audioEngagementScore : ℝ) * 0.2 +
    ((100 - s.frustrationLevel : ℚ) : ℝ) * 0.1)

open Classical in
/-- `getMetrics` from advancedEngagementTracker.ts (lines 245-335), including
the threshold-based `engagementLevel` classification (lines 297-315). -/
noncomputable def getMetrics (s : State) (now : ℤ) : Metrics :=
  let attentionScore := attentionRaw s now
  let engagementScore := engagementRaw s now
  let engagementLevel : Level :=
    if attentionScore < s.thresholds.criticalAttentionScore ∨
        engagementScore < (s.thresholds.criticalEngagementScore : ℝ) ∨
        s.frustrationLevel > s.thresholds.criticalFrustrationLevel then
      Level.critical
    else if attentionScore < s.thresholds.minAttentionScore ∨
        engagementScore < (s.thresholds.minEngagementScore : ℝ) ∨
        s.frustrationLevel > s.thresholds.maxFrustrationLevel then
      Level.low
    else if (70 : ℝ) ≤ engagementScore ∧ (70 : ℚ) ≤ attentionScore then
      Level.high
    else Level.medium
  { focusTime := currentFocusTime s now
    activeTime := now - s.startTime
    interactionCount := s.interactionCount
    mouseMovement := totalMouseDistance s
    eyeTrackingScore := eyeScore s
    avgFixationDuration := if s.eyeTrackingEnabled then s.eyeAvgFixationDuration else 0
    gazeDispersion := if s.eyeTrackingEnabled then s.eyeGazeDispersion else 0
    saccadeVelocity := if s.eyeTrackingEnabled then
        (if s.eyeVelocityMap.length > 0 then s.eyeVelocityMap.sum / s.eyeVelocityMap.length
         else 0)
      else 0
    audioEngagementScore := s.audioEngagementScore
    speechRate := s.speechRate
    responseLatency := s.responseLatency
    attentionScore := round attentionScore
    engagementScore := round engagementScore
    frustrationLevel := round s.frustrationLevel
    confusionLevel := round s.confusionLevel
    engagementLevel := engagementLevel }

/-- `takeSnapshot` from advancedEngagementTracker.ts (lines 199-243): rate
limited to one snapshot per 2000 ms; records the current metrics; buffer
trimmed to 30 entries. -/
noncomputable def takeSnapshot (s : State) (now : ℤ) (mouseX mouseY : ℚ)
    (hasInteraction : Bool) : State :=
  if now - s.lastSnapshotTime < 2000 then s
  else
    let eyeGaze : Option EyeGazePoint :=
      if s.eyeTrackingEnabled then s.eyeGazeData.getLast? else none
    let fixationDuration : ℚ :=
      if s.eyeTrackingEnabled then s.eyeFixationDurations.getLast?.getD 0 else 0
    let m := getMetrics s now
    let pushed := s.snapshots ++
      [⟨now, s.isFocused, mouseX, mouseY, hasInteraction, eyeGaze, fixationDuration,
        m.attentionScore, m.engagementScore, m.frustrationLevel⟩]
    { s with
      snapshots := if pushed.length > 30 then pushed.tail else pushed
      lastSnapshotTime := now }

/-- `trackMouse` from advancedEngagementTracker.ts (lines 167-178): accumulate
the Euclidean step when it exceeds the 5-pixel threshold (`d > 25` on squared
distances, cf. `ET.sqrt_gt_five_iff`), then attempt a snapshot. -/
noncomputable def trackMouse (s : State) (now : ℤ) (x y : ℚ) : State :=
  let dist2 := (x - s.lastMousePos.1) ^ 2 + (y - s.lastMousePos.2) ^ 2
  let s1 := if dist2 > 25 then
      { s with mouseSegments := s.mouseSegments ++ [dist2], lastMousePos := (x, y) }
    else s
  takeSnapshot s1 now x y false

/-- Mark the most recent snapshot as having an interaction (if any). -/
def markLastInteraction : List Snapshot → List Snapshot
  | [] => []
  | [a] => [{ a with hasInteraction := true }]
  | a :: b :: rest => a :: markLastInteraction (b :: rest)

/-- `trackInteraction` from advancedEngagementTracker.ts (lines 180-186). -/
def trackInteraction (s : State) : State :=
  { s with
    interactionCount := s.interactionCount + 1
    snapshots := markLastInteraction s.snapshots }

/-- `updateAudioMetrics` from advancedEngagementTracker.ts (lines 188-192). -/
def updateAudioMetrics (s : State) (engagement speechRate latency : ℚ) : State :=
  { s with
    audioEngagementScore := engagement
    speechRate := speechRate
    responseLatency := latency }

/-- `updateEmotionalState` from advancedEngagementTracker.ts (lines 194-197). -/
def updateEmotionalState (s : State) (frustration confusion : ℚ) : State :=
  { s with frustrationLevel := frustration, confusionLevel := confusion }

/-- Events driving the advanced tracker. -/
inductive Ev where
  | mouse (x y : ℚ)
  | interaction
  | audio (engagement speechRate latency : ℚ)
  | emotion (frustration confusion : ℚ)
  | focus
  | blur
  deriving DecidableEq, Repr

/-- One timed event applied to the state. -/
noncomputable def step (s : State) (e : ℤ × Ev) : State :=
  match e.2 with
  | .mouse x y => trackMouse s e.1 x y
  | .interaction => trackInteraction s
  | .audio a b c => updateAudioMetrics s a b c
  | .emotion f c => updateEmotionalState s f c
  | .focus => handleFocus s e.1
  | .blur => handleBlur s e.1

/-- Run a trace of timed events from a fresh tracker created at `t0`. -/
noncomputable def run (t0 : ℤ) (tr : List (ℤ × Ev)) : State :=
  tr.foldl step (initState t0)

/-- Event times are nondecreasing starting from `t`. -/
def chronB : ℤ → List (ℤ × Ev) → Bool
  | _, [] => true
  | t, (u, _) :: rest => decide (t ≤ u) && chronB u rest

/-- Time of the last event (or `t` for the empty trace). -/
def endTime : ℤ → List (ℤ × Ev) → ℤ
  | t, [] => t
  | _, (u, _) :: rest => endTime u rest

/-- All externally supplied modality arguments are within their declared 0-100
ranges: audio engagement nonnegative, frustration at most 100. -/
def argsOkB (tr : List (ℤ × Ev)) : Bool :=
  tr.all (fun e =>
    match e.2 with
    | .audio engagement _ _ => decide (0 ≤ engagement)
    | .emotion frustration _ => decide (frustration ≤ 100)
    | _ => true)

/-- Accumulated mouse distance is nonnegative. -/
theorem adv_totalMouseDistance_nonneg (s : State) : 0 ≤ totalMouseDistance s := by
  apply List.sum_nonneg
  intro x hx
  simp only [List.mem_map] at hx
  obtain ⟨d, -, rfl⟩ := hx
  exact Real.sqrt_nonneg _

/-- State invariant at time `t`: nonnegative accumulated focus time, a focus
interval started no later than `t`, and eye tracking off (none of the four
tracked operations can enable it). -/
def Inv (t : ℤ) (s : State) : Prop :=
  0 ≤ s.totalFocusTime ∧ (s.isFocused = true → s.focusStartTime ≤ t) ∧
    s.eyeTrackingEnabled = false

/-- Externally supplied modality values are in range. -/
def ArgsInv (s : State) : Prop :=
  0 ≤ s.audioEngagementScore ∧ s.frustrationLevel ≤ 100

/-- The invariant is monotone in time. -/
theorem adv_inv_mono {t u : ℤ} {s : State} (h : Inv t s) (hle : t ≤ u) : Inv u s :=
  ⟨h.1, fun hf => le_trans (h.2.1 hf) hle, h.2.2⟩

/-- `takeSnapshot` only touches the snapshot buffer and its timestamp. -/
theorem takeSnapshot_fields (s : State) (now : ℤ) (mx my : ℚ) (hi : Bool) :
    (takeSnapshot s now mx my hi).totalFocusTime = s.totalFocusTime ∧
    (takeSnapshot s now mx my hi).isFocused = s.isFocused ∧
    (takeSnapshot s now mx my hi).focusStartTime = s.focusStartTime ∧
    (takeSnapshot s now mx my hi).eyeTrackingEnabled = s.eyeTrackingEnabled ∧
    (takeSnapshot s now mx my hi).audioEngagementScore = s.audioEngagementScore ∧
    (takeSnapshot s now mx my hi).frustrationLevel = s.frustrationLevel := by
  rw [takeSnapshot]
  split_ifs <;> simp

/-- `trackMouse` only touches the mouse accumulator and the snapshot buffer. -/
theorem trackMouse_fields (s : State) (now : ℤ) (x y : ℚ) :
    (trackMouse s now x y).totalFocusTime = s.totalFocusTime ∧
    (trackMouse s now x y).isFocused = s.isFocused ∧
    (trackMouse s now x y).focusStartTime = s.focusStartTime ∧
    (trackMouse s now x y).eyeTrackingEnabled = s.eyeTrackingEnabled ∧
    (trackMouse s now x y).audioEngagementScore = s.audioEngagementScore ∧
    (trackMouse s now x y).frustrationLevel = s.frustrationLevel := by
  have h := fun (s' : State) => takeSnapshot_fields s' now x y false
  simp only [trackMouse]
  split_ifs with h1
  · simpa using h _
  · exact h s

/-- Every step taken at time `u ≥ t` preserves the invariant. -/
theorem adv_step_inv {s : State} {t u : ℤ} {e : Ev} (hle : t ≤ u) (h : Inv t s) :
    Inv u (step s (u, e)) := by
  have h' : Inv u s := adv_inv_mono h hle
  cases e with
  | mouse x y =>
      obtain ⟨h1, h2, h3, h4, -, -⟩ := trackMouse_fields s u x y
      exact ⟨h1 ▸ h'.1, fun hx => h3 ▸ h'.2.1 (h2 ▸ hx), h4 ▸ h'.2.2⟩
  | interaction => exact ⟨h'.1, fun hx => h'.2.1 hx, h'.2.2⟩
  | audio a b c => exact ⟨h'.1, fun hx => h'.2.1 hx, h'.2.2⟩
  | emotion f c => exact ⟨h'.1, fun hx => h'.2.1 hx, h'.2.2⟩
  | focus =>
      show Inv u (handleFocus s u)
      rw [handleFocus]
      split_ifs with hf
      · exact h'
      · exact ⟨h'.1, fun _ => le_refl u, h'.2.2⟩
  | blur =>
      show Inv u (handleBlur s u)
      rw [handleBlur]
      split_ifs with hf
      · refine ⟨?_, fun hx => by simp at hx, h'.2.2⟩
        have := h'.2.1 hf
        have := h'.1
        simp only
        omega
      · exact h'

/-- Every in-range step preserves the modality-range invariant. -/
theorem step_args {s : State} {u : ℤ} {e : Ev}
    (he : (match e with
      | .audio engagement _ _ => decide (0 ≤ engagement)
      | .emotion frustration _ => decide (frustration ≤ 100)
      | _ => true) = true)
    (h : ArgsInv s) : ArgsInv (step s (u, e)) := by
  cases e with
  | mouse x y =>
      obtain ⟨-, -, -, -, h5, h6⟩ := trackMouse_fields s u x y
      exact ⟨h5 ▸ h.1, h6 ▸ h.2⟩
  | interaction => exact ⟨h.1, h.2⟩
  | audio a b c =>
      simp only [decide_eq_true_eq] at he
      exact ⟨he, h.2⟩
  | emotion f c =>
      simp only [decide_eq_true_eq] at he
      exact ⟨h.1, he⟩
  | focus =>
      show ArgsInv (handleFocus s u)
      rw [handleFocus]; split_ifs <;> exact ⟨h.1, h.2⟩
  | blur =>
      show ArgsInv (handleBlur s u)
      rw [handleBlur]; split_ifs <;> exact ⟨h.1, h.2⟩

/-- Both invariants hold along any chronological, in-range fold. -/
theorem adv_foldl_inv : ∀ (tr : List (ℤ × Ev)) {t : ℤ} {s : State},
    chronB t tr = true → Inv t s →
    Inv (endTime t tr) (List.foldl step s tr) := by
  intro tr
  induction tr with
  | nil => intro t s _ hs; exact hs
  | cons e rest ih =>
      intro t s hc hs
      obtain ⟨u, ev⟩ := e
      rw [chronB, Bool.and_eq_true, decide_eq_true_eq] at hc
      exact ih hc.2 (adv_step_inv hc.1 hs)

/-- The modality-range invariant holds along any in-range fold. -/
theorem foldl_args : ∀ (tr : List (ℤ × Ev)) {s : State},
    argsOkB tr = true → ArgsInv s → ArgsInv (List.foldl step s tr) := by
  intro tr
  induction tr with
  | nil => intro s _ hs; exact hs
  | cons e rest ih =>
      intro s ha hs
      obtain ⟨u, ev⟩ := e
      rw [argsOkB, List.all_cons, Bool.and_eq_true] at ha
      exact ih ha.2 (step_args ha.1 hs)

/-- The invariant holds for every chronological run. -/
theorem adv_run_inv (t0 : ℤ) (tr : List (ℤ × Ev)) (h : chronB t0 tr = true) :
    Inv (endTime t0 tr) (run t0 tr) :=
  adv_foldl_inv tr h ⟨le_refl 0, fun _ => le_refl t0, rfl⟩

/-- The modality-range invariant holds for every in-range run. -/
theorem run_args (t0 : ℤ) (tr : List (ℤ × Ev)) (h : argsOkB tr = true) :
    ArgsInv (run t0 tr) :=
  foldl_args tr h ⟨le_refl 0, by norm_num [initState]⟩

/-- Under the invariant (eye tracking off, coherent focus bookkeeping) the
reported attention score is clamped to [0, 100]. -/
theorem getMetrics_att_bounds (s : State) (now : ℤ) (h : Inv now s) :
    0 ≤ (getMetrics s now).attentionScore ∧ (getMetrics s now).attentionScore ≤ 100 := by
  have hatt : attentionRaw s now = baseFocusScore s now := by
    rw [attentionRaw, if_neg]
    simp [h.2.2]
  have hcf : 0 ≤ currentFocusTime s now := by
    rw [currentFocusTime]
    rcases hb : s.isFocused with - | -
    · simpa [hb] using h.1
    · have := h.2.1 hb
      have := h.1
      simp only [hb, if_pos]
      omega
  have hff : 0 ≤ focusFrac s now := by
    rw [focusFrac]
    split_ifs with hT
    · apply div_nonneg
      · exact_mod_cast hcf
      · exact_mod_cast hT.le
    · exact le_refl 0
  have h0 : 0 ≤ baseFocusScore s now :=
    le_min (by norm_num) (mul_nonneg hff (by norm_num))
  have h100 : baseFocusScore s now ≤ 100 := min_le_left _ _
  have hrw : (getMetrics s now).attentionScore = round (attentionRaw s now) := rfl
  rw [hrw, hatt]
  exact ⟨round_nonneg_of_nonneg h0, round_le_int (by exact_mod_cast h100)⟩

/-- The reported engagement score never exceeds 100 (the outer cap), for every
state. -/
theorem getMetrics_eng_le (s : State) (now : ℤ) :
    (getMetrics s now).engagementScore ≤ 100 := by
  have hrw : (getMetrics s now).engagementScore = round (engagementRaw s now) := rfl
  rw [hrw]
  exact round_le_int (by exact_mod_cast min_le_left _ _)

/-- With in-range audio and frustration values the reported engagement score is
also nonnegative. -/
theorem getMetrics_eng_nonneg (s : State) (now : ℤ) (h : Inv now s) (ha : ArgsInv s) :
    0 ≤ (getMetrics s now).engagementScore := by
  have hatt : attentionRaw s now = baseFocusScore s now := by
    rw [attentionRaw, if_neg]
    simp [h.2.2]
  have hcf : 0 ≤ currentFocusTime s now := by
    rw [currentFocusTime]
    rcases hb : s.isFocused with - | -
    · simpa [hb] using h.1
    · have := h.2.1 hb
      have := h.1
      simp only [hb, if_pos]
      omega
  have hff : 0 ≤ focusFrac s now := by
    rw [focusFrac]
    split_ifs with hT
    · apply div_nonneg
      · exact_mod_cast hcf
      · exact_mod_cast hT.le
    · exact le_refl 0
  have h0 : 0 ≤ attentionRaw s now := by
    rw [hatt]
    exact le_min (by norm_num) (mul_nonneg hff (by norm_num))
  have hir : 0 ≤ interactionRate s now := by
    rw [interactionRate]
    split_ifs with hT
    · have h1 : (0 : ℚ) < ((now - s.startTime : ℤ) : ℚ) := by exact_mod_cast hT
      positivity
    · exact le_refl 0
  have hma0 : 0 ≤ mouseActivity s :=
    le_min (by norm_num)
      (mul_nonneg (div_nonneg (adv_totalMouseDistance_nonneg s) (by norm_num)) (by norm_num))
  have heng0 : 0 ≤ engagementRaw s now := by
    refine le_min (by norm_num) ?_
    have c1 : (0 : ℝ) ≤ (attentionRaw s now : ℝ) := by exact_mod_cast h0
    have c2 : (0 : ℝ) ≤ ((min 100 (interactionRate s now * 10) : ℚ) : ℝ) := by
      have : (0 : ℚ) ≤ min 100 (interactionRate s now * 10) :=
        le_min (by norm_num) (by positivity)
      exact_mod_cast this
    have c3 := hma0
    have c4 : (0 : ℝ) ≤ (s.audioEngagementScore : ℝ) := by exact_mod_cast ha.1
    have c5 : (0 : ℝ) ≤ ((100 - s.frustrationLevel : ℚ) : ℝ) := by
      have : (0 : ℚ) ≤ 100 - s.frustrationLevel := by linarith [ha.2]
      exact_mod_cast this
    positivity
  have hrw : (getMetrics s now).engagementScore = round (engagementRaw s now) := rfl
  rw [hrw]
  exact round_nonneg_of_nonneg heng0

/-- `markLastInteraction` preserves the buffer length. -/
theorem adv_markLastInteraction_length (l : List Snapshot) :
    (markLastInteraction l).length = l.length := by
  induction l with
  | nil => rfl
  | cons a rest ih =>
      cases rest with
      | nil => rfl
      | cons b r => simpa [markLastInteraction] using ih

/-- `takeSnapshot` keeps the snapshot buffer within 30 entries. -/
theorem takeSnapshot_snapshots_le (s : State) (now : ℤ) (mx my : ℚ) (hi : Bool)
    (h : s.snapshots.length ≤ 30) :
    (takeSnapshot s now mx my hi).snapshots.length ≤ 30 := by
  rw [takeSnapshot]
  split_ifs with h1
  · exact h
  all_goals (dsimp only; split_ifs <;> simp_all)

/-- Every step keeps the snapshot buffer within 30 entries. -/
theorem adv_step_snapshots_le (s : State) (e : ℤ × Ev) (h : s.snapshots.length ≤ 30) :
    (step s e).snapshots.length ≤ 30 := by
  obtain ⟨u, ev⟩ := e
  cases ev with
  | mouse x y =>
      show (trackMouse s u x y).snapshots.length ≤ 30
      simp only [trackMouse]
      split_ifs with h1
      · exact takeSnapshot_snapshots_le _ u x y false (by simpa using h)
      · exact takeSnapshot_snapshots_le s u x y false h
  | interaction =>
      simpa [step, trackInteraction, adv_markLastInteraction_length] using h
  | audio a b c => simpa [step, updateAudioMetrics] using h
  | emotion f c => simpa [step, updateEmotionalState] using h
  | focus =>
      show (handleFocus s u).snapshots.length ≤ 30
      rw [handleFocus]; split_ifs <;> simpa using h
  | blur =>
      show (handleBlur s u).snapshots.length ≤ 30
      rw [handleBlur]; split_ifs <;> simpa using h

/-- Any run retains at most 30 snapshots. -/
theorem adv_run_snapshots_le (t0 : ℤ) (tr : List (ℤ × Ev)) :
    (run t0 tr).snapshots.length ≤ 30 := by
  rw [run]
  have hgen : ∀ (l : List (ℤ × Ev)) (s : State), s.snapshots.length ≤ 30 →
      (List.foldl step s l).snapshots.length ≤ 30 := by
    intro l
    induction l with
    | nil => intro s hs; exact hs
    | cons e rest ih => intro s hs; exact ih _ (adv_step_snapshots_le s e hs)
  exact hgen tr (initState t0) (by simp [initState])

/-- FIFO eviction for a due snapshot on a full buffer. -/
theorem takeSnapshot_fifo (s : State) (now : ℤ) (mx my : ℚ) (hi : Bool)
    (hfull : s.snapshots.length = 30) (helapsed : 2000 ≤ now - s.lastSnapshotTime) :
    ∃ snap, (takeSnapshot s now mx my hi).snapshots = s.snapshots.tail ++ [snap] := by
  have hne : s.snapshots ≠ [] := by
    intro hnil; rw [hnil] at hfull; simp at hfull
  rw [takeSnapshot, if_neg (by omega)]
  dsimp only
  rw [if_pos (by simp [hfull])]
  exact ⟨_, ET.tail_append_singleton _ _ hne⟩

/-- FIFO eviction through `trackMouse`: on a full buffer with a due snapshot,
the oldest snapshot is removed and exactly one new one is appended. -/
theorem adv_trackMouse_fifo (s : State) (now : ℤ) (x y : ℚ)
    (hfull : s.snapshots.length = 30) (helapsed : 2000 ≤ now - s.lastSnapshotTime) :
    ∃ snap, (trackMouse s now x y).snapshots = s.snapshots.tail ++ [snap] := by
  simp only [trackMouse]
  split_ifs with h1
  · exact takeSnapshot_fifo _ now x y false (by simpa using hfull) (by simpa using helapsed)
  · exact takeSnapshot_fifo s now x y false hfull helapsed

end AET

/-- Counterexample to claim C2 as stated: on the advanced tracker a single
`updateEmotionalState` call with an out-of-range frustration argument drives
the reported engagement score far below 0 (here to -990). -/
theorem C2_counterexample :
    (AET.getMetrics (AET.run 0 [(0, AET.Ev.emotion 10000 0)]) 0).engagementScore < 0 := by
  have hget : (AET.getMetrics (AET.run 0 [(0, AET.Ev.emotion 10000 0)]) 0).engagementScore =
      round (AET.engagementRaw (AET.run 0 [(0, AET.Ev.emotion 10000 0)]) 0) := rfl
  rw [hget]
  have hrun : AET.run 0 [(0, AET.Ev.emotion 10000 0)] =
      { AET.initState 0 with frustrationLevel := 10000, confusionLevel := 0 } := rfl
  have h2 : AET.engagementRaw (AET.run 0 [(0, AET.Ev.emotion 10000 0)]) 0 = -990 := by
    rw [hrun]
    norm_num [AET.engagementRaw, AET.attentionRaw, AET.baseFocusScore, AET.focusFrac,
      AET.currentFocusTime, AET.interactionRate, AET.mouseActivity, AET.totalMouseDistance,
      AET.eyeScore, AET.initState, min_def, List.map_nil, List.sum_nil]
  rw [h2, show ((-990 : ℝ)) = ((-990 : ℤ) : ℝ) by norm_num, round_intCast]
  norm_num

/-- Claim C2 (amended): for every state reachable by tracked operations with
chronological timestamps, the base tracker keeps both scores in [0, 100]; the
advanced tracker keeps the attention score in [0, 100] and the engagement score
at most 100 unconditionally, and at least 0 provided the externally supplied
audio-engagement values are nonnegative and frustration values are at most 100
(their declared 0-100 ranges).  The original claim fails without that proviso
(`C2_counterexample`). -/
theorem C2_scores_clamped :
    (∀ (t0 now : ℤ) (tr : List (ℤ × ET.Ev)),
      (ET.chronB t0 tr && decide (ET.endTime t0 tr ≤ now)) = true →
      0 ≤ (ET.getMetrics (ET.run t0 tr) now).attentionScore ∧
      (ET.getMetrics (ET.run t0 tr) now).attentionScore ≤ 100 ∧
      0 ≤ (ET.getMetrics (ET.run t0 tr) now).engagementScore ∧
      (ET.getMetrics (ET.run t0 tr) now).engagementScore ≤ 100) ∧
    (∀ (t0 now : ℤ) (tr : List (ℤ × AET.Ev)),
      (AET.chronB t0 tr && decide (AET.endTime t0 tr ≤ now)) = true →
      (0 ≤ (AET.getMetrics (AET.run t0 tr) now).attentionScore ∧
        (AET.getMetrics (AET.run t0 tr) now).attentionScore ≤ 100 ∧
        (AET.getMetrics (AET.run t0 tr) now).engagementScore ≤ 100) ∧
      (AET.argsOkB tr = true →
        0 ≤ (AET.getMetrics (AET.run t0 tr) now).engagementScore)) := by
  constructor
  · intro t0 now tr h
    rw [Bool.and_eq_true, decide_eq_true_eq] at h
    exact ET.getMetrics_bounds _ now (ET.inv_mono (ET.run_inv t0 tr h.1) h.2)
  · intro t0 now tr h
    rw [Bool.and_eq_true, decide_eq_true_eq] at h
    have hinv : AET.Inv now (AET.run t0 tr) :=
      AET.adv_inv_mono (AET.adv_run_inv t0 tr h.1) h.2
    refine ⟨⟨(AET.getMetrics_att_bounds _ now hinv).1,
      (AET.getMetrics_att_bounds _ now hinv).2, AET.getMetrics_eng_le _ now⟩, ?_⟩
    intro hargs
    exact AET.getMetrics_eng_nonneg _ now hinv (AET.run_args t0 tr hargs)

/-- Witness for C2 (amended): a concrete chronological trace on each tracker. -/
theorem C2_scores_clamped_witness :
    ((ET.chronB 0 [(0, ET.Ev.interaction), (5, ET.Ev.mouse 3 4)] &&
        decide (ET.endTime 0 [(0, ET.Ev.interaction), (5, ET.Ev.mouse 3 4)] ≤ 10)) = true ∧
      0 ≤ (ET.getMetrics (ET.run 0 [(0, ET.Ev.interaction), (5, ET.Ev.mouse 3 4)])
          10).engagementScore) ∧
    ((AET.chronB 0 [(0, AET.Ev.interaction)] &&
        decide (AET.endTime 0 [(0, AET.Ev.interaction)] ≤ 10)) = true ∧
      AET.argsOkB [(0, AET.Ev.interaction)] = true ∧
      0 ≤ (AET.getMetrics (AET.run 0 [(0, AET.Ev.interaction)]) 10).engagementScore) :=
  ⟨⟨by decide,
    (C2_scores_clamped.1 0 10 [(0, ET.Ev.interaction), (5, ET.Ev.mouse 3 4)]
      (by decide)).2.2.1⟩,
    ⟨by decide, by decide,
      (C2_scores_clamped.2 0 10 [(0, AET.Ev.interaction)] (by decide)).2 (by decide)⟩⟩

/-- Claim C4: on both trackers, any sequence of operations leaves at most 30
snapshots, and on a full buffer a due snapshot evicts exactly the oldest entry
while appending exactly one new one (FIFO). -/
theorem C4_snapshot_buffer_fifo :
    (∀ (t0 : ℤ) (tr : List (ℤ × ET.Ev)), (ET.run t0 tr).snapshots.length ≤ 30) ∧
    (∀ (s : ET.State) (now : ℤ) (x y : ℚ), s.snapshots.length = 30 →
      2000 ≤ now - s.lastSnapshotTime →
      (ET.trackMouse s now x y).snapshots =
        s.snapshots.tail ++ [⟨now, s.isFocused, x, y, false⟩]) ∧
    (∀ (t0 : ℤ) (tr : List (ℤ × AET.Ev)), (AET.run t0 tr).snapshots.length ≤ 30) ∧
    (∀ (s : AET.State) (now : ℤ) (x y : ℚ), s.snapshots.length = 30 →
      2000 ≤ now - s.lastSnapshotTime →
      ∃ snap, (AET.trackMouse s now x y).snapshots = s.snapshots.tail ++ [snap]) :=
  ⟨ET.run_snapshots_le, ET.trackMouse_fifo, AET.adv_run_snapshots_le, AET.adv_trackMouse_fifo⟩

/-- Witness for C4: full 30-snapshot buffers on both trackers with a due
snapshot. -/
theorem C4_snapshot_buffer_fifo_witness :
    ((⟨0, 0, (0, 0), [], 0, true, 0, 0, List.replicate 30 ⟨0, true, 0, 0, false⟩, 0⟩ :
        ET.State).snapshots.length = 30 ∧
      (2000 : ℤ) ≤ 2000 - (⟨0, 0, (0, 0), [], 0, true, 0, 0,
        List.replicate 30 ⟨0, true, 0, 0, false⟩, 0⟩ : ET.State).lastSnapshotTime ∧
      (ET.trackMouse ⟨0, 0, (0, 0), [], 0, true, 0, 0,
          List.replicate 30 ⟨0, true, 0, 0, false⟩, 0⟩ 2000 0 0).snapshots =
        (List.replicate 30 (⟨0, true, 0, 0, false⟩ : ET.Snapshot)).tail ++
          [⟨2000, true, 0, 0, false⟩]) ∧
    ((⟨0, 0, (0, 0), [], 0, true, 0, 0,
        List.replicate 30 ⟨0, true, 0, 0, false, none, 0, 0, 0, 0⟩, 0, false, 0, 0, 0,
        [], [], [], 0, 0, 0, 0, 0, AET.defaultThresholds⟩ : AET.State).snapshots.length = 30 ∧
      ∃ snap, (AET.trackMouse ⟨0, 0, (0, 0), [], 0, true, 0, 0,
          List.replicate 30 ⟨0, true, 0, 0, false, none, 0, 0, 0, 0⟩, 0, false, 0, 0, 0,
          [], [], [], 0, 0, 0, 0, 0, AET.defaultThresholds⟩ 2000 0 0).snapshots =
        (List.replicate 30 (⟨0, true, 0, 0, false, none, 0, 0, 0, 0⟩ : AET.Snapshot)).tail ++
          [snap]) :=
  ⟨⟨by decide, by decide,
    C4_snapshot_buffer_fifo.2.1 ⟨0, 0, (0, 0), [], 0, true, 0, 0,
      List.replicate 30 ⟨0, true, 0, 0, false⟩, 0⟩ 2000 0 0 (by decide) (by decide)⟩,
    ⟨by decide,
      C4_snapshot_buffer_fifo.2.2.2 ⟨0, 0, (0, 0), [], 0, true, 0, 0,
        List.replicate 30 ⟨0, true, 0, 0, false, none, 0, 0, 0, 0⟩, 0, false, 0, 0, 0,
        [], [], [], 0, 0, 0, 0, 0, AET.defaultThresholds⟩ 2000 0 0 (by decide) (by decide)⟩⟩

open Classical in
/-- Claim C5: the advanced tracker's engagement level is classified from the
computed attention score, engagement score and frustration level against the
configured thresholds: critical when any critical threshold is breached;
otherwise low when any non-critical threshold is breached; otherwise high when
both scores are at least 70; otherwise medium. -/
theorem C5_engagement_level_classification (s : AET.State) (now : ℤ) :
    ((AET.getMetrics s now).engagementLevel = AET.Level.critical ↔
      (AET.attentionRaw s now < s.thresholds.criticalAttentionScore ∨
        AET.engagementRaw s now < (s.thresholds.criticalEngagementScore : ℝ) ∨
        s.frustrationLevel > s.thresholds.criticalFrustrationLevel)) ∧
    ((AET.getMetrics s now).engagementLevel = AET.Level.low ↔
      (¬(AET.attentionRaw s now < s.thresholds.criticalAttentionScore ∨
          AET.engagementRaw s now < (s.thresholds.criticalEngagementScore : ℝ) ∨
          s.frustrationLevel > s.thresholds.criticalFrustrationLevel) ∧
        (AET.attentionRaw s now < s.thresholds.minAttentionScore ∨
          AET.engagementRaw s now < (s.thresholds.minEngagementScore : ℝ) ∨
          s.frustrationLevel > s.thresholds.maxFrustrationLevel))) ∧
    ((AET.getMetrics s now).engagementLevel = AET.Level.high ↔
      (¬(AET.attentionRaw s now < s.thresholds.criticalAttentionScore ∨
          AET.engagementRaw s now < (s.thresholds.criticalEngagementScore : ℝ) ∨
          s.frustrationLevel > s.thresholds.criticalFrustrationLevel) ∧
        ¬(AET.attentionRaw s now < s.thresholds.minAttentionScore ∨
          AET.engagementRaw s now < (s.thresholds.minEngagementScore : ℝ) ∨
          s.frustrationLevel > s.thresholds.maxFrustrationLevel) ∧
        ((70 : ℝ) ≤ AET.engagementRaw s now ∧ (70 : ℚ) ≤ AET.attentionRaw s now))) ∧
    ((AET.getMetrics s now).engagementLevel = AET.Level.medium ↔
      (¬(AET.attentionRaw s now < s.thresholds.criticalAttentionScore ∨
          AET.engagementRaw s now < (s.thresholds.criticalEngagementScore : ℝ) ∨
          s.frustrationLevel > s.thresholds.criticalFrustrationLevel) ∧
        ¬(AET.attentionRaw s now < s.thresholds.minAttentionScore ∨
          AET.engagementRaw s now < (s.thresholds.minEngagementScore : ℝ) ∨
          s.frustrationLevel > s.thresholds.maxFrustrationLevel) ∧
        ¬((70 : ℝ) ≤ AET.engagementRaw s now ∧ (70 : ℚ) ≤ AET.attentionRaw s now))) := by
  simp only [AET.getMetrics]
  by_cases h1 : (AET.attentionRaw s now < s.thresholds.criticalAttentionScore ∨
      AET.engagementRaw s now < (s.thresholds.criticalEngagementScore : ℝ) ∨
      s.frustrationLevel > s.thresholds.criticalFrustrationLevel)
  · simp [h1]
  · by_cases h2 : (AET.attentionRaw s now < s.thresholds.minAttentionScore ∨
        AET.engagementRaw s now < (s.thresholds.minEngagementScore : ℝ) ∨
        s.frustrationLevel > s.thresholds.maxFrustrationLevel)
    · simp [h1, h2]
    · by_cases h3 : ((70 : ℝ) ≤ AET.engagementRaw s now ∧ (70 : ℚ) ≤ AET.attentionRaw s now)
      · simp [h1, h2, h3]
      · simp [h1, h2, h3]

namespace Research

/-- Coerce to a signed 32-bit value, as the JS bitwise operations
(`<< 5`, `& `) do via ToInt32. -/
def toInt32 (x : ℤ) : ℤ := (x + 2 ^ 31) % 2 ^ 32 - 2 ^ 31

/-- One iteration of the `hashUserId` loop in researchDataPipeline.ts
(lines 377-387): `hash = (hash << 5) - hash + char; hash = hash & hash`. -/
def hashStep (h : ℤ) (c : ℕ) : ℤ := toInt32 (toInt32 (h * 32) - h + c)

/-- The string hash of the loop in `hashUserId` over the UTF-16 code units
(ASCII here, so `Char.toNat`). -/
def hashString (s : String) : ℤ := s.data.foldl (fun h c => hashStep h c.toNat) 0

/-- Base-36 digit character, uppercase — the composition of JS `toString(36)`
with `.toUpperCase()` digit by digit. -/
def base36Char (d : ℕ) : Char :=
  if d < 10 then Char.ofNat (48 + d) else Char.ofNat (55 + d)

/-- Uppercased base-36 representation of a natural number, as produced by
`Math.abs(hash).toString(36).toUpperCase()`. -/
def natToBase36 (n : ℕ) : String :=
  if n = 0 then "0" else String.mk ((Nat.digits 36 n).reverse.map base36Char)

/-- `hashUserId` from researchDataPipeline.ts (lines 377-387). -/
def hashUserId (userId salt : String) : String :=
  "ANON-" ++ natToBase36 (hashString (userId ++ salt)).natAbs

/-- `PseudonymousID` record from researchDataPipeline.ts. -/
structure PseudonymousID where
  userId : String
  pseudoId : String
  salt : String
  createdAt : ℤ
  deriving DecidableEq, Repr

/-- The part of `ResearchDataCollector` state that `generatePseudonymousId`
touches: the `pseudonymMap`, as an insertion-ordered association list. -/
structure CollectorState where
  pseudonymMap : List (String × PseudonymousID)
  deriving DecidableEq, Repr

/-- A fresh `ResearchDataCollector`. -/
def initCollector : CollectorState := ⟨[]⟩

/-- `generatePseudonymousId` from researchDataPipeline.ts (lines 124-140).
The salt produced by `generateSalt()` (`Math.random`) and the `Date.now()`
timestamp are explicit parameters. -/
def generatePseudonymousId (s : CollectorState) (userId : String) (salt : String)
    (now : ℤ) : String × CollectorState :=
  match s.pseudonymMap.lookup userId with
  | some p => (p.pseudoId, s)
  | none =>
      let pseudoId := hashUserId userId salt
      (pseudoId, ⟨s.pseudonymMap ++ [(userId, ⟨userId, pseudoId, salt, now⟩)]⟩)

/-- Lookup skips a prefix in which the key is absent. -/
theorem lookup_append_of_eq_none {α β : Type} [BEq α] (l1 l2 : List (α × β)) (k : α)
    (h : l1.lookup k = none) : (l1 ++ l2).lookup k = l2.lookup k := by
  induction l1 with
  | nil => simp
  | cons a rest ih =>
      obtain ⟨k1, v1⟩ := a
      cases hb : k == k1 <;> simp [List.lookup, hb] at h ⊢
      exact ih h

/-- `base36Char` is injective on base-36 digits. -/
theorem base36Char_inj : ∀ d1 < 36, ∀ d2 < 36, base36Char d1 = base36Char d2 → d1 = d2 := by
  decide

/-- Mapping `base36Char` over digit lists is injective. -/
theorem map_base36Char_inj : ∀ (l1 l2 : List ℕ), (∀ x ∈ l1, x < 36) → (∀ x ∈ l2, x < 36) →
    l1.map base36Char = l2.map base36Char → l1 = l2 := by
  intro l1
  induction l1 with
  | nil =>
      intro l2 _ _ h
      cases l2 with
      | nil => rfl
      | cons b r2 => simp at h
  | cons a r ih =>
      intro l2 h1 h2 h
      cases l2 with
      | nil => simp at h
      | cons b r2 =>
          simp only [List.map_cons, List.cons.injEq] at h
          have ha : a < 36 := h1 a (by simp)
          have hb : b < 36 := h2 b (by simp)
          have hab := base36Char_inj a ha b hb h.1
          subst hab
          have := ih r2 (fun x hx => h1 x (by simp [hx])) (fun x hx => h2 x (by simp [hx])) h.2
          rw [this]

/-- The base-36 representation is injective. -/
theorem natToBase36_inj : ∀ m n : ℕ, natToBase36 m = natToBase36 n → m = n := by
  have key : ∀ n : ℕ, n ≠ 0 → natToBase36 n ≠ "0" := by
    intro n hn h
    rw [natToBase36, if_neg hn] at h
    have hd : (Nat.digits 36 n).reverse.map base36Char = ['0'] := congrArg String.data h
    have hlen : (Nat.digits 36 n).reverse.length = 1 := by
      have := congrArg List.length hd
      simpa using this
    obtain ⟨d, hdig⟩ : ∃ d, (Nat.digits 36 n).reverse = [d] := by
      rcases hrev : (Nat.digits 36 n).reverse with - | ⟨d, rest⟩
      · rw [hrev] at hlen; simp at hlen
      · rw [hrev] at hlen
        simp at hlen
        subst hlen
        exact ⟨d, rfl⟩
    rw [hdig] at hd
    simp only [List.map_cons, List.map_nil, List.cons.injEq, and_true] at hd
    have hdlt : d < 36 := by
      have hmem : d ∈ Nat.digits 36 n := by
        have : d ∈ (Nat.digits 36 n).reverse := by rw [hdig]; simp
        simpa using this
      exact Nat.digits_lt_base (by norm_num) hmem
    have hd0 : d = 0 := base36Char_inj d hdlt 0 (by norm_num) (by simpa [base36Char] using hd)
    have hdig' : Nat.digits 36 n = [d] := by
      have := congrArg List.reverse hdig
      simpa using this
    have hofd := Nat.ofDigits_digits 36 n
    rw [hdig', hd0] at hofd
    simp [Nat.ofDigits] at hofd
    exact hn hofd.symm
  intro m n h
  by_cases hm : m = 0 <;> by_cases hn : n = 0
  · rw [hm, hn]
  · subst hm
    rw [show natToBase36 0 = "0" from rfl] at h
    exact absurd h.symm (key n hn)
  · subst hn
    rw [show natToBase36 0 = "0" from rfl] at h
    exact absurd h (key m hm)
  · rw [natToBase36, if_neg hm, natToBase36, if_neg hn] at h
    have hdata : (Nat.digits 36 m).reverse.map base36Char =
        (Nat.digits 36 n).reverse.map base36Char := congrArg String.data h
    have hb1 : ∀ x ∈ (Nat.digits 36 m).reverse, x < 36 := by
      intro x hx
      exact Nat.digits_lt_base (by norm_num) (by simpa using hx)
    have hb2 : ∀ x ∈ (Nat.digits 36 n).reverse, x < 36 := by
      intro x hx
      exact Nat.digits_lt_base (by norm_num) (by simpa using hx)
    have hrev := map_base36Char_inj _ _ hb1 hb2 hdata
    have hdig : Nat.digits 36 m = Nat.digits 36 n := by
      have := congrArg List.reverse hrev
      simpa using this
    calc m = Nat.ofDigits 36 (Nat.digits 36 m) := (Nat.ofDigits_digits 36 m).symm
      _ = Nat.ofDigits 36 (Nat.digits 36 n) := by rw [hdig]
      _ = n := Nat.ofDigits_digits 36 n

/-- `hashUserId` produces equal pseudo-ids exactly when the 32-bit salted
hashes agree in absolute value. -/
theorem hashUserId_eq_iff (u s1 s2 : String) :
    hashUserId u s1 = hashUserId u s2 ↔
      (hashString (u ++ s1)).natAbs = (hashString (u ++ s2)).natAbs := by
  rw [hashUserId, hashUserId]
  constructor
  · intro h
    have hdata := congrArg String.data h
    rw [String.data_append, String.data_append] at hdata
    have hcanc := List.append_cancel_left hdata
    exact natToBase36_inj _ _ (String.ext hcanc)
  · intro h
    rw [h]

end Research

/-- Counterexample to claim C9 as stated: the distinct salts "30" and "1n"
produce the same string hash on `u + salt` (the 31-ary hash of the salt part is
31·51+48 = 31·49+110 = 1629 in both cases), so two fresh collectors with these
different salts return the identical pseudo-id for the same user. -/
theorem C9_counterexample :
    ("30" : String) ≠ "1n" ∧
    (Research.generatePseudonymousId Research.initCollector "u" "30" 0).1 =
      (Research.generatePseudonymousId Research.initCollector "u" "1n" 0).1 := by
  refine ⟨by decide, ?_⟩
  show Research.hashUserId "u" "30" = Research.hashUserId "u" "1n"
  exact (Research.hashUserId_eq_iff "u" "30" "1n").mpr (by decide)

/-- Claim C9 (amended): on one collector instance, two calls with the same
userId return the identical pseudo-id (memoisation); two fresh collector
instances return different pseudo-ids for the same userId exactly when the
absolute values of their 32-bit salted hashes differ — differing salts alone
do not guarantee differing pseudo-ids. -/
theorem C9_pseudonymous_id :
    (∀ (st : Research.CollectorState) (u salt1 salt2 : String) (t1 t2 : ℤ),
      (Research.generatePseudonymousId
          ((Research.generatePseudonymousId st u salt1 t1).2) u salt2 t2).1 =
        (Research.generatePseudonymousId st u salt1 t1).1) ∧
    (∀ (u salt1 salt2 : String) (t1 t2 : ℤ),
      (Research.generatePseudonymousId Research.initCollector u salt1 t1).1 ≠
          (Research.generatePseudonymousId Research.initCollector u salt2 t2).1 ↔
        (Research.hashString (u ++ salt1)).natAbs ≠
          (Research.hashString (u ++ salt2)).natAbs) := by
  constructor
  · intro st u salt1 salt2 t1 t2
    rcases hl : st.pseudonymMap.lookup u with - | p
    · have hfst : Research.generatePseudonymousId st u salt1 t1 =
          (Research.hashUserId u salt1,
            ⟨st.pseudonymMap ++
              [(u, ⟨u, Research.hashUserId u salt1, salt1, t1⟩)]⟩) := by
        simp only [Research.generatePseudonymousId, hl]
      rw [hfst]
      simp only [Research.generatePseudonymousId]
      rw [Research.lookup_append_of_eq_none _ _ _ hl]
      simp [List.lookup]
    · have hfst : Research.generatePseudonymousId st u salt1 t1 = (p.pseudoId, st) := by
        simp only [Research.generatePseudonymousId, hl]
      rw [hfst]
      simp only [Research.generatePseudonymousId, hl]
  · intro u salt1 salt2 t1 t2
    have h1 : (Research.generatePseudonymousId Research.initCollector u salt1 t1).1 =
        Research.hashUserId u salt1 := rfl
    have h2 : (Research.generatePseudonymousId Research.initCollector u salt2 t2).1 =
        Research.hashUserId u salt2 := rfl
    rw [h1, h2]
    exact not_iff_not.mpr (Research.hashUserId_eq_iff u salt1 salt2)
